import Mathlib

/-!
Verification development for the aiden-sdk TypeScript client library.

This file gives a shallow embedding of the SDK's three core components —
the error classifier (`errors.ts`), the HTTP transport/retry engine
(`http.ts` / `HttpClient`) and the SSE streaming parser (`streaming.ts` /
`AidenStream`) — and proves or refutes the specification claims about them.

JavaScript strings are modelled as `List Char`; JavaScript runtime values
produced by `JSON.parse` are modelled by the inductive `JVal`; machine
numbers that matter to the claims are integral and are modelled as
`Nat`/`Int`/`ℚ` (the jitter drawn from `Math.random() * 500` is a rational).
-/

set_option maxRecDepth 20000

-- ============================================================================
-- JavaScript values (results of JSON.parse) and string helpers
-- ============================================================================

/-- A JavaScript value as produced by `JSON.parse`: null, booleans, (integral)
numbers, strings, arrays and objects. -/
inductive JVal where
  | null : JVal
  | bool : Bool → JVal
  | num : Int → JVal
  | str : String → JVal
  | arr : List JVal → JVal
  | obj : List (String × JVal) → JVal
deriving Repr

/-- JavaScript property access `j[k]` for the values above: `none` models
`undefined` (missing property, or property access on a primitive). Object
literals from `JSON.parse` keep the last duplicate key. -/
def jsGet (j : JVal) (k : String) : Option JVal :=
  match j with
  | .obj fs => (fs.reverse.find? (fun p => p.1 == k)).map (·.2)
  | _ => none

/-- JavaScript truthiness of an optional value (`none` = `undefined`). -/
def truthy (o : Option JVal) : Bool :=
  match o with
  | none => false
  | some .null => false
  | some (.bool b) => b
  | some (.num n) => n != 0
  | some (.str s) => s != ""
  | some (.arr _) => true
  | some (.obj _) => true

/-- Whitespace characters recognised by `JSON.parse` and `String.trim`. -/
def isWsChar (c : Char) : Bool :=
  c == ' ' || c == '\t' || c == '\n' || c == '\r'

/-- Drop leading whitespace. -/
def skipWs : List Char → List Char
  | [] => []
  | c :: cs => if isWsChar c then skipWs cs else c :: cs

/-- `String.prototype.trim` on a character list. -/
def trimL (cs : List Char) : List Char :=
  skipWs ((skipWs cs.reverse).reverse)

/-- Does the list start with the given pattern (JS `String.startsWith`). -/
def startsWithL : List Char → List Char → Bool
  | [], _ => true
  | _ :: _, [] => false
  | p :: ps, c :: cs => p == c && startsWithL ps cs

/-- JS `String.split('\n\n')`: split on the two-newline SSE record separator,
leftmost-first, keeping empty segments. The accumulator holds the current
segment reversed. -/
def splitBlankLine (acc : List Char) : List Char → List (List Char)
  | [] => [acc.reverse]
  | '\n' :: '\n' :: cs => acc.reverse :: splitBlankLine [] cs
  | c :: cs => splitBlankLine (c :: acc) cs

/-- JS `String.split('\n')`. -/
def splitNl (acc : List Char) : List Char → List (List Char)
  | [] => [acc.reverse]
  | '\n' :: cs => acc.reverse :: splitNl [] cs
  | c :: cs => splitNl (c :: acc) cs

/-- Decimal digits to a natural number. -/
def digitsToNat (ds : List Char) : Nat :=
  ds.foldl (fun a c => a * 10 + (c.toNat - 48)) 0

-- ============================================================================
-- JSON.parse (the host runtime's parser, as used by the SDK)
-- ============================================================================

/-- Body of a JSON string literal after the opening quote: returns the
decoded characters and the rest of the input after the closing quote.
`\uXXXX` escapes are outside the modelled fragment. -/
def parseStrBody : List Char → Option (List Char × List Char)
  | [] => none
  | '"' :: rest => some ([], rest)
  | '\\' :: e :: rest =>
    match (match e with
           | '"' => some '"'
           | '\\' => some '\\'
           | '/' => some '/'
           | 'n' => some '\n'
           | 't' => some '\t'
           | 'r' => some '\r'
           | 'b' => some (Char.ofNat 8)
           | 'f' => some (Char.ofNat 12)
           | _ => none) with
    | some c => (parseStrBody rest).map (fun p => (c :: p.1, p.2))
    | none => none
  | c :: rest => (parseStrBody rest).map (fun p => (c :: p.1, p.2))

/-- A JSON number (integral fragment): optional minus then digits, rejecting
fractions and exponents. -/
def parseNum (cs : List Char) : Option (JVal × List Char) :=
  let (neg, cs1) : Bool × List Char :=
    match cs with
    | '-' :: rest => (true, rest)
    | _ => (false, cs)
  let ds := cs1.takeWhile (fun c => c.isDigit)
  let rest := cs1.dropWhile (fun c => c.isDigit)
  if ds.isEmpty then none
  else
    match rest with
    | '.' :: _ => none
    | 'e' :: _ => none
    | 'E' :: _ => none
    | _ =>
      let n : Int := Int.ofNat (digitsToNat ds)
      some (.num (if neg then -n else n), rest)

mutual

/-- Recursive-descent JSON value parser, fuel-bounded. -/
def parseJVal : Nat → List Char → Option (JVal × List Char)
  | 0, _ => none
  | Nat.succ fuel, cs =>
    match skipWs cs with
    | 'n' :: 'u' :: 'l' :: 'l' :: r => some (.null, r)
    | 't' :: 'r' :: 'u' :: 'e' :: r => some (.bool true, r)
    | 'f' :: 'a' :: 'l' :: 's' :: 'e' :: r => some (.bool false, r)
    | '"' :: r => (parseStrBody r).map (fun p => (.str (String.mk p.1), p.2))
    | '[' :: r =>
      (match skipWs r with
       | ']' :: r2 => some (.arr [], r2)
       | r1 => (parseElems fuel r1).map (fun p => (.arr p.1, p.2)))
    | '{' :: r =>
      (match skipWs r with
       | '}' :: r2 => some (.obj [], r2)
       | r1 => (parseMembers fuel r1).map (fun p => (.obj p.1, p.2)))
    | cs' => parseNum cs'

/-- One or more comma-separated array elements followed by `]`. -/
def parseElems : Nat → List Char → Option (List JVal × List Char)
  | 0, _ => none
  | Nat.succ fuel, cs => do
    let (v, r) ← parseJVal fuel cs
    match skipWs r with
    | ',' :: r2 => do
      let (vs, r3) ← parseElems fuel r2
      pure (v :: vs, r3)
    | ']' :: r2 => pure ([v], r2)
    | _ => none

/-- One or more `"key": value` members followed by `}`. -/
def parseMembers : Nat → List Char → Option (List (String × JVal) × List Char)
  | 0, _ => none
  | Nat.succ fuel, cs =>
    match skipWs cs with
    | '"' :: r => do
      let (k, r2) ← parseStrBody r
      match skipWs r2 with
      | ':' :: r3 => do
        let (v, r4) ← parseJVal fuel r3
        match skipWs r4 with
        | ',' :: r5 => do
          let (kvs, r6) ← parseMembers fuel r5
          pure ((String.mk k, v) :: kvs, r6)
        | '}' :: r5 => pure ([(String.mk k, v)], r5)
        | _ => none
      | _ => none
    | _ => none

end

/-- `JSON.parse` on a character list: parse one value, require only
whitespace after it; `none` models the thrown `SyntaxError`. -/
def jsonParseL (cs : List Char) : Option JVal :=
  match parseJVal (2 * cs.length + 4) cs with
  | some (j, rest) => if skipWs rest = [] then some j else none
  | none => none

/-- `JSON.parse` on a string. -/
def jsonParse (s : String) : Option JVal :=
  jsonParseL s.data

example : jsonParse "null" = some .null := by rfl
example : jsonParse "not json" = none := by rfl
example : jsonParse " \x7b\"a\": [1, -2], \"b\": \"x\"\x7d " =
    some (.obj [("a", .arr [.num 1, .num (-2)]), ("b", .str "x")]) := by rfl

-- ============================================================================
-- Error hierarchy (errors.ts)
-- ============================================================================

/-- `ResponseMeta` as it reaches the error factory at runtime: the declared
fields are `requestId` / `timestamp`, but the factory guards both the object
and `requestId` with `?.` / `??`, so each is optional here. -/
structure RespMeta where
  requestId : Option String := none
  timestamp : Option String := none
deriving Repr, DecidableEq

/-- The `error` member of an `ApiErrorResponse`. -/
structure ErrInfo where
  code : String
  message : String
  details : Option JVal := none
deriving Repr

/-- An `ApiErrorResponse` body `\x7b error, meta \x7d` as consumed by
`createErrorFromResponse`; `meta` may be absent at runtime. -/
structure ErrorBody where
  error : ErrInfo
  meta : Option RespMeta := none
deriving Repr

/-- The closed hierarchy of SDK error classes. Each subclass of `AidenError`
fixes `status` (and for the 429/5xx/connection/timeout classes also `code`)
in its constructor, so those are not stored but recovered by the accessors
below, mirroring the `super(...)` calls in errors.ts. -/
inductive SdkError where
  | validation (message code requestId : String) (meta : Option RespMeta)
      (details : Option JVal)
  | authentication (message code requestId : String) (meta : Option RespMeta)
      (details : Option JVal)
  | forbidden (message code requestId : String) (meta : Option RespMeta)
      (details : Option JVal)
  | notFound (message code requestId : String) (meta : Option RespMeta)
      (details : Option JVal)
  | conflict (message code requestId : String) (meta : Option RespMeta)
      (details : Option JVal)
  | unprocessableEntity (message code requestId : String) (meta : Option RespMeta)
      (details : Option JVal)
  | rateLimit (message requestId : String) (retryAfter : Int)
      (meta : Option RespMeta) (details : Option JVal)
  | internal (message requestId : String) (meta : Option RespMeta)
      (details : Option JVal)
  | badGateway (message requestId : String) (meta : Option RespMeta)
      (details : Option JVal)
  | serviceUnavailable (message requestId : String) (meta : Option RespMeta)
      (details : Option JVal)
  | gatewayTimeout (message requestId : String) (meta : Option RespMeta)
      (details : Option JVal)
  | aiden (message code : String) (status : Nat) (requestId : String)
      (meta : Option RespMeta) (details : Option JVal)
  | connection (message : String) (cause : Option String)
  | timeout (message : String) (timeoutMs : Int)
deriving Repr

/-- The kind tag of an error (which class it is an instance of). -/
inductive ErrKind where
  | validation | authentication | forbidden | notFound | conflict
  | unprocessableEntity | rateLimit | internal | badGateway
  | serviceUnavailable | gatewayTimeout | generic | connection | timeout
deriving Repr, DecidableEq

/-- Which error class an `SdkError` belongs to. -/
def SdkError.kindOf : SdkError → ErrKind
  | .validation .. => .validation
  | .authentication .. => .authentication
  | .forbidden .. => .forbidden
  | .notFound .. => .notFound
  | .conflict .. => .conflict
  | .unprocessableEntity .. => .unprocessableEntity
  | .rateLimit .. => .rateLimit
  | .internal .. => .internal
  | .badGateway .. => .badGateway
  | .serviceUnavailable .. => .serviceUnavailable
  | .gatewayTimeout .. => .gatewayTimeout
  | .aiden .. => .generic
  | .connection .. => .connection
  | .timeout .. => .timeout

/-- The `status` field, as fixed by each class constructor (0 for the
network-level errors). -/
def SdkError.statusOf : SdkError → Nat
  | .validation .. => 400
  | .authentication .. => 401
  | .forbidden .. => 403
  | .notFound .. => 404
  | .conflict .. => 409
  | .unprocessableEntity .. => 422
  | .rateLimit .. => 429
  | .internal .. => 500
  | .badGateway .. => 502
  | .serviceUnavailable .. => 503
  | .gatewayTimeout .. => 504
  | .aiden _ _ status .. => status
  | .connection .. => 0
  | .timeout .. => 0

/-- The `code` field, as stored or fixed by each class constructor. -/
def SdkError.codeOf : SdkError → String
  | .validation _ code .. => code
  | .authentication _ code .. => code
  | .forbidden _ code .. => code
  | .notFound _ code .. => code
  | .conflict _ code .. => code
  | .unprocessableEntity _ code .. => code
  | .rateLimit .. => "RATE_LIMITED"
  | .internal .. => "INTERNAL_ERROR"
  | .badGateway .. => "BAD_GATEWAY"
  | .serviceUnavailable .. => "SERVICE_UNAVAILABLE"
  | .gatewayTimeout .. => "GATEWAY_TIMEOUT"
  | .aiden _ code .. => code
  | .connection .. => "CONNECTION_ERROR"
  | .timeout .. => "TIMEOUT"

/-- The `requestId` field (the network-level errors pass `'unknown'`). -/
def SdkError.requestIdOf : SdkError → String
  | .validation _ _ requestId .. => requestId
  | .authentication _ _ requestId .. => requestId
  | .forbidden _ _ requestId .. => requestId
  | .notFound _ _ requestId .. => requestId
  | .conflict _ _ requestId .. => requestId
  | .unprocessableEntity _ _ requestId .. => requestId
  | .rateLimit _ requestId .. => requestId
  | .internal _ requestId .. => requestId
  | .badGateway _ requestId .. => requestId
  | .serviceUnavailable _ requestId .. => requestId
  | .gatewayTimeout _ requestId .. => requestId
  | .aiden _ _ _ requestId .. => requestId
  | .connection .. => "unknown"
  | .timeout .. => "unknown"

/-- The `retryAfter` field: only `RateLimitError` carries one. -/
def SdkError.retryAfterOf : SdkError → Option Int
  | .rateLimit _ _ retryAfter .. => some retryAfter
  | _ => none

/-- `createErrorFromResponse` (errors.ts): map an HTTP status and a parsed
error body to the matching error class. The `switch` on the status is a
sequence of strict equality tests. -/
def reqIdOfBody (body : ErrorBody) : String :=
  (body.meta.bind RespMeta.requestId).getD "unknown"

def createErrorFromResponse (status : Nat) (body : ErrorBody)
    (retryAfterMs : Option Int := none) : SdkError :=
  if status = 400 then
    .validation body.error.message body.error.code (reqIdOfBody body)
      body.meta body.error.details
  else if status = 401 then
    .authentication body.error.message body.error.code (reqIdOfBody body)
      body.meta body.error.details
  else if status = 403 then
    .forbidden body.error.message body.error.code (reqIdOfBody body)
      body.meta body.error.details
  else if status = 404 then
    .notFound body.error.message body.error.code (reqIdOfBody body)
      body.meta body.error.details
  else if status = 409 then
    .conflict body.error.message body.error.code (reqIdOfBody body)
      body.meta body.error.details
  else if status = 422 then
    .unprocessableEntity body.error.message body.error.code (reqIdOfBody body)
      body.meta body.error.details
  else if status = 429 then
    .rateLimit body.error.message (reqIdOfBody body) (retryAfterMs.getD 60000)
      body.meta body.error.details
  else if status = 500 then
    .internal body.error.message (reqIdOfBody body) body.meta body.error.details
  else if status = 502 then
    .badGateway body.error.message (reqIdOfBody body) body.meta body.error.details
  else if status = 503 then
    .serviceUnavailable body.error.message (reqIdOfBody body)
      body.meta body.error.details
  else if status = 504 then
    .gatewayTimeout body.error.message (reqIdOfBody body)
      body.meta body.error.details
  else
    .aiden body.error.message body.error.code status (reqIdOfBody body)
      body.meta body.error.details

-- ============================================================================
-- Spec-side description of the classifier (for the refinement claim C3)
-- ============================================================================

/-- Modelled from the spec: the kind the Error Classifier must select for
each status — 400→Validation, 401→Authentication, 403→Forbidden,
404→NotFound, 409→Conflict, 422→UnprocessableEntity, 429→RateLimit,
500→Internal, 502→BadGateway, 503→ServiceUnavailable, 504→GatewayTimeout,
anything else → the generic typed error. -/
def specErrKind (status : Nat) : ErrKind :=
  if status = 400 then .validation
  else if status = 401 then .authentication
  else if status = 403 then .forbidden
  else if status = 404 then .notFound
  else if status = 409 then .conflict
  else if status = 422 then .unprocessableEntity
  else if status = 429 then .rateLimit
  else if status = 500 then .internal
  else if status = 502 then .badGateway
  else if status = 503 then .serviceUnavailable
  else if status = 504 then .gatewayTimeout
  else .generic

/-- Modelled from the spec: the machine-readable code of the classified
error — the fixed per-class codes for 429/5xx, and the raw body code
otherwise. -/
def specErrCode (status : Nat) (rawCode : String) : String :=
  if status = 429 then "RATE_LIMITED"
  else if status = 500 then "INTERNAL_ERROR"
  else if status = 502 then "BAD_GATEWAY"
  else if status = 503 then "SERVICE_UNAVAILABLE"
  else if status = 504 then "GATEWAY_TIMEOUT"
  else rawCode

-- ============================================================================
-- HTTP transport engine (http.ts / HttpClient)
-- ============================================================================

/-- The parts of a fetch `Response` the transport engine reads: status,
status text, the body text that `response.json()` parses, and the two
response headers it consults. -/
structure HttpResp where
  status : Nat
  statusText : String := ""
  bodyText : String := ""
  retryAfterHeader : Option String := none
  xRequestId : Option String := none
deriving Repr

/-- `response.ok`: status in the 2xx range. -/
def HttpResp.isOk (r : HttpResp) : Bool :=
  decide (200 ≤ r.status) && decide (r.status < 300)

/-- One outcome of a single `fetch` call: a response, or one of the thrown
exception shapes the catch block in `requestRaw` distinguishes — a
`TypeError` whose message contains `fetch` (network unreachable), a DOM
`AbortError` (the timeout or cancellation signal fired), or any other
exception. -/
inductive FetchOutcome where
  | resp (r : HttpResp)
  | netErr (msg : String)
  | abortErr
  | otherErr (msg : String)
deriving Repr

/-- JS `parseInt(s, 10)`: skip leading whitespace, optional sign, then the
longest digit run; `none` models `NaN`. -/
def parseIntLead (s : String) : Option Int :=
  let cs := skipWs s.data
  let (neg, cs1) : Bool × List Char :=
    match cs with
    | '-' :: rest => (true, rest)
    | '+' :: rest => (false, rest)
    | _ => (false, cs)
  let ds := cs1.takeWhile (fun c => c.isDigit)
  if ds.isEmpty then none
  else
    let n : Int := Int.ofNat (digitsToNat ds)
    some (if neg then -n else n)

/-- `HttpClient.parseRetryAfter`: the `retry-after` header, parsed first as
seconds (→ ms), else as an HTTP date via the host `Date` parser (modelled by
the oracle `dateParse`, giving epoch ms) clamped at 0 relative to `now`,
else 60000 ms. A missing header also yields 60000 ms. -/
def parseRetryAfter (r : HttpResp) (dateParse : String → Option Int)
    (now : Int) : Int :=
  match r.retryAfterHeader with
  | none => 60000
  | some s =>
    match parseIntLead s with
    | some seconds => seconds * 1000
    | none =>
      match dateParse s with
      | some t => max 0 (t - now)
      | none => 60000

/-- `HttpClient.calculateBackoff`: exponential backoff with jitter, capped
at 30 s. `jit` is the value drawn from `Math.random() * 500`. -/
def calculateBackoff (attempt : Nat) (jit : ℚ) : ℚ :=
  min ((2 ^ attempt : ℚ) * 1000 + jit) 30000

/-- The message of the `TypeError` thrown when `createErrorFromResponse`
destructures `body.error` of a body lacking a usable `error` member. -/
def destructureMsg : String :=
  "Cannot destructure property code of body.error as it is undefined"

/-- The unchecked `as ApiErrorResponse` cast composed with the destructuring
reads in `createErrorFromResponse`: `none` models the `TypeError` thrown by
`const (code, message, details) = body.error` when the parsed body is `null`
or its `error` member is `null`/absent. When the destructuring succeeds the
fields are read as the cast leaves them: a missing or ill-typed string field
reads as the empty string (no theorem observes those fields on ill-typed
bodies), `meta?.requestId` only when it is a string. -/
def decodeErrorBody (j : JVal) : Option ErrorBody :=
  match j with
  | .null => none
  | _ =>
    match jsGet j "error" with
    | none => none
    | some .null => none
    | some e =>
      some
        { error :=
            { code :=
                match jsGet e "code" with
                | some (.str s) => s
                | _ => ""
              message :=
                match jsGet e "message" with
                | some (.str s) => s
                | _ => ""
              details := jsGet e "details" }
          meta :=
            match jsGet j "meta" with
            | some m =>
              some { requestId :=
                       match jsGet m "requestId" with
                       | some (.str s) => some s
                       | _ => none
                     timestamp :=
                       match jsGet m "timestamp" with
                       | some (.str s) => some s
                       | _ => none }
            | none => none }

/-- The synthesized `UNKNOWN_ERROR` fallback body `safeParseJson` returns
when the error body is not valid JSON (request id from the `x-request-id`
header or `unknown`). -/
def fallbackErrorBody (r : HttpResp) : ErrorBody :=
  { error :=
      { code := "UNKNOWN_ERROR"
        message :=
          if r.statusText ≠ "" then r.statusText
          else "HTTP " ++ toString r.status }
    meta := some { requestId := some (r.xRequestId.getD "unknown") } }

/-- `HttpClient.safeParseJson` composed with the destructuring reads of the
classifier: the body the classifier works on, or `none` when the classifier
call throws a `TypeError` (a valid-JSON body without a usable `error`
member). An invalid-JSON body takes the synthesized fallback, which is
well-shaped. -/
def safeParsedBody (r : HttpResp) : Option ErrorBody :=
  match jsonParse r.bodyText with
  | some j => decodeErrorBody j
  | none => some (fallbackErrorBody r)

/-- The `ConnectionError` the catch block of `requestRaw` wraps the
classifier's destructuring `TypeError` into (`Request failed: <message>`,
with the `TypeError` as cause). -/
def connDestructure : SdkError :=
  .connection ("Request failed: " ++ destructureMsg) (some "TypeError")

-- ============================================================================
-- Header construction (HttpClient.buildHeaders)
-- ============================================================================

/-- Client configuration fields read by `buildHeaders`. -/
structure ClientCfg where
  apiKey : String
  userId : Option String := none
deriving Repr

/-- Per-request options read by `buildHeaders`. -/
structure ReqOpts where
  userId : Option String := none
  headers : Option (List (String × String)) := none
deriving Repr

/-- JS object property assignment `o[k] = v`: overwrite in place if the key
exists, else append (insertion order preserved). -/
def objSet (o : List (String × String)) (k v : String) :
    List (String × String) :=
  if o.any (fun p => p.1 == k) then
    o.map (fun p => if p.1 == k then (k, v) else p)
  else o ++ [(k, v)]

/-- JS object property read `o[k]`. -/
def objGet (o : List (String × String)) (k : String) : Option String :=
  (o.find? (fun p => p.1 == k)).map (·.2)

/-- The first half of `HttpClient.buildHeaders`: the fixed
content/accept/authorization headers, plus `X-User-ID` when the effective
user id (`options.userId ?? config.userId`) is truthy (present and
non-empty). -/
def baseHeaders (cfg : ClientCfg) (opts : ReqOpts) :
    List (String × String) :=
  match (match opts.userId with
         | some u => some u
         | none => cfg.userId) with
  | some u =>
    if u = "" then
      [("Content-Type", "application/json"),
       ("Accept", "application/json"),
       ("Authorization", "Bearer " ++ cfg.apiKey)]
    else
      objSet [("Content-Type", "application/json"),
              ("Accept", "application/json"),
              ("Authorization", "Bearer " ++ cfg.apiKey)] "X-User-ID" u
  | none =>
    [("Content-Type", "application/json"),
     ("Accept", "application/json"),
     ("Authorization", "Bearer " ++ cfg.apiKey)]

/-- `HttpClient.buildHeaders`: the base headers, then `Object.assign` of the
caller's custom headers (last write wins). -/
def buildHeaders (cfg : ClientCfg) (opts : ReqOpts) :
    List (String × String) :=
  match opts.headers with
  | some hs => hs.foldl (fun acc p => objSet acc p.1 p.2) (baseHeaders cfg opts)
  | none => baseHeaders cfg opts

/-- Does the caller's custom-header object contain the given key? -/
def customHas (opts : ReqOpts) (k : String) : Bool :=
  match opts.headers with
  | some hs => hs.any (fun p => p.1 == k)
  | none => false

/-- The effective user id `options.userId ?? config.userId`. -/
def effUserId (cfg : ClientCfg) (opts : ReqOpts) : Option String :=
  match opts.userId with
  | some u => some u
  | none => cfg.userId

/-- JS truthiness of the effective user id (`if (userId)`). -/
def userIdTruthy (cfg : ClientCfg) (opts : ReqOpts) : Bool :=
  match effUserId cfg opts with
  | some u => u != ""
  | none => false

/-- The value the last occurrence of a key receives in a JS object literal
iteration (what `Object.assign` leaves behind for that key). -/
def lastAssoc (hs : List (String × String)) (k : String) : Option String :=
  hs.foldl (fun acc p => if p.1 == k then some p.2 else acc) none

/-- Left-biased choice on optional lookup results. -/
def orO : Option String → Option String → Option String
  | some v, _ => some v
  | none, b => b

-- ============================================================================
-- fetchWithTimeout (HttpClient.fetchWithTimeout)
-- ============================================================================

/-- The `RequestInit.signal` slot: `some s` is a caller-supplied
`AbortSignal` (identified by a tag). -/
structure ReqInit where
  signal : Option String := none
deriving Repr, DecidableEq

/-- How `fetchWithTimeout` dispatches one fetch: which caller signal (if
any) it passes through, whether it synthesized an `AbortController`, and the
`setTimeout` delay it armed (if any). -/
structure FetchPlan where
  callerSignal : Option String
  synthesizedController : Bool
  timerMs : Option Int
deriving Repr, DecidableEq

/-- `HttpClient.fetchWithTimeout`: if the caller already provided a signal,
fetch with it directly; otherwise synthesize an `AbortController` and arm a
timer that aborts it after `timeoutMs`. -/
def fetchWithTimeout (init : ReqInit) (timeoutMs : Int) : FetchPlan :=
  if init.signal.isSome then
    { callerSignal := init.signal
      synthesizedController := false
      timerMs := none }
  else
    { callerSignal := none
      synthesizedController := true
      timerMs := some timeoutMs }

-- ============================================================================
-- The retry loop (HttpClient.requestRaw / request / requestPaginated)
-- ============================================================================

/-- A value thrown out of the transport engine: either one of the typed SDK
errors, or a raw (untyped) JavaScript exception. -/
inductive Thrown where
  | typed (e : SdkError)
  | raw (msg : String)
deriving Repr

/-- Is the thrown value one of the typed SDK errors? -/
def Thrown.isTyped : Thrown → Bool
  | .typed _ => true
  | .raw _ => false

/-- The environment of one `requestRaw` execution: the resolved retry/timeout
configuration, the request URL, the transport (`fetchFn`) giving the outcome
of the fetch at each attempt index, the per-attempt jitter drawn by
`Math.random() * 500`, and the host date parser / clock used by
`parseRetryAfter`. -/
structure RunEnv where
  maxRetries : Nat
  timeout : Int
  url : String
  transport : Nat → FetchOutcome
  jitter : Nat → ℚ
  dateParse : String → Option Int
  now : Int

/-- The observable result of the retry loop: the returned response or the
thrown error, how many times the transport was invoked, and the sleep
durations awaited (in order). -/
structure LoopOut where
  result : Except Thrown HttpResp
  calls : Nat
  sleeps : List ℚ

/-- One execution of the bounded retry loop of `HttpClient.requestRaw`,
starting at `attempt` with `fuel` loop iterations remaining
(`attempt ≤ maxRetries` and `fuel = maxRetries + 1 - attempt` at the start).
When the loop exits without an early return it throws
`lastError ?? ConnectionError('Request failed after all retries')`.

Every call to `createErrorFromResponse` happens inside the try: when the
parsed error body has no usable `error` member (`safeParsedBody r = none`)
the classifier throws a `TypeError` that the catch wraps as
`connDestructure` and, with attempts remaining, sleeps the backoff once
more and retries — so even a non-retryable status is retried on such a
body, and the retryable branches sleep twice. The jitter oracle is indexed
by attempt, so that extra catch-path sleep reuses the attempt's draw. -/
def requestRawGo (env : RunEnv) (attempt : Nat) (fuel : Nat)
    (lastError : Option SdkError) : LoopOut :=
  match fuel with
  | 0 =>
    { result := .error (.typed (lastError.getD
        (.connection "Request failed after all retries" none)))
      calls := 0
      sleeps := [] }
  | Nat.succ fuel =>
    match env.transport attempt with
    | .resp r =>
      if r.isOk then { result := .ok r, calls := 1, sleeps := [] }
      else if r.status = 204 then { result := .ok r, calls := 1, sleeps := [] }
      else if r.status = 429 ∧ attempt < env.maxRetries then
        match safeParsedBody r with
        | some body =>
          { result := (requestRawGo env (attempt + 1) fuel
              (some (createErrorFromResponse r.status body
                (some (parseRetryAfter r env.dateParse env.now))))).result
            calls := (requestRawGo env (attempt + 1) fuel
              (some (createErrorFromResponse r.status body
                (some (parseRetryAfter r env.dateParse env.now))))).calls + 1
            sleeps := min ((parseRetryAfter r env.dateParse env.now : ℚ))
                (calculateBackoff attempt (env.jitter attempt)) ::
              (requestRawGo env (attempt + 1) fuel
                (some (createErrorFromResponse r.status body
                  (some (parseRetryAfter r env.dateParse env.now))))).sleeps }
        | none =>
          { result := (requestRawGo env (attempt + 1) fuel
              (some connDestructure)).result
            calls := (requestRawGo env (attempt + 1) fuel
              (some connDestructure)).calls + 1
            sleeps := min ((parseRetryAfter r env.dateParse env.now : ℚ))
                (calculateBackoff attempt (env.jitter attempt)) ::
              calculateBackoff attempt (env.jitter attempt) ::
              (requestRawGo env (attempt + 1) fuel
                (some connDestructure)).sleeps }
      else if 500 ≤ r.status ∧ attempt < env.maxRetries then
        match safeParsedBody r with
        | some body =>
          { result := (requestRawGo env (attempt + 1) fuel
              (some (createErrorFromResponse r.status body none))).result
            calls := (requestRawGo env (attempt + 1) fuel
              (some (createErrorFromResponse r.status body none))).calls + 1
            sleeps := calculateBackoff attempt (env.jitter attempt) ::
              (requestRawGo env (attempt + 1) fuel
                (some (createErrorFromResponse r.status body none))).sleeps }
        | none =>
          { result := (requestRawGo env (attempt + 1) fuel
              (some connDestructure)).result
            calls := (requestRawGo env (attempt + 1) fuel
              (some connDestructure)).calls + 1
            sleeps := calculateBackoff attempt (env.jitter attempt) ::
              calculateBackoff attempt (env.jitter attempt) ::
              (requestRawGo env (attempt + 1) fuel
                (some connDestructure)).sleeps }
      else
        match safeParsedBody r with
        | some body =>
          { result := .error (.typed (createErrorFromResponse r.status body
              (if r.status = 429
               then some (parseRetryAfter r env.dateParse env.now)
               else none)))
            calls := 1
            sleeps := [] }
        | none =>
          if attempt < env.maxRetries then
            { result := (requestRawGo env (attempt + 1) fuel
                (some connDestructure)).result
              calls := (requestRawGo env (attempt + 1) fuel
                (some connDestructure)).calls + 1
              sleeps := calculateBackoff attempt (env.jitter attempt) ::
                (requestRawGo env (attempt + 1) fuel
                  (some connDestructure)).sleeps }
          else
            { result := .error (.typed connDestructure)
              calls := 1
              sleeps := [] }
    | .netErr _ =>
      if attempt < env.maxRetries then
        { result := (requestRawGo env (attempt + 1) fuel
            (some (SdkError.connection ("Failed to connect to " ++ env.url)
              (some "TypeError")))).result
          calls := (requestRawGo env (attempt + 1) fuel
            (some (SdkError.connection ("Failed to connect to " ++ env.url)
              (some "TypeError")))).calls + 1
          sleeps := calculateBackoff attempt (env.jitter attempt) ::
            (requestRawGo env (attempt + 1) fuel
              (some (SdkError.connection ("Failed to connect to " ++ env.url)
                (some "TypeError")))).sleeps }
      else
        { result := .error (.typed (SdkError.connection
            ("Failed to connect to " ++ env.url) (some "TypeError")))
          calls := 1
          sleeps := [] }
    | .abortErr =>
      { result := .error (.typed (.timeout
          ("Request timed out after " ++ toString env.timeout ++ "ms")
          env.timeout))
        calls := 1
        sleeps := [] }
    | .otherErr msg =>
      if attempt < env.maxRetries then
        { result := (requestRawGo env (attempt + 1) fuel
            (some (SdkError.connection ("Request failed: " ++ msg)
              none))).result
          calls := (requestRawGo env (attempt + 1) fuel
            (some (SdkError.connection ("Request failed: " ++ msg)
              none))).calls + 1
          sleeps := calculateBackoff attempt (env.jitter attempt) ::
            (requestRawGo env (attempt + 1) fuel
              (some (SdkError.connection ("Request failed: " ++ msg)
                none))).sleeps }
      else
        { result := .error (.typed (SdkError.connection
            ("Request failed: " ++ msg) none))
          calls := 1
          sleeps := [] }

/-- The retry loop of `HttpClient.requestRaw` with the request URL already
constructed: `maxRetries + 1` attempts starting at attempt 0 with no
recorded error. `requestRawFull` below adds the URL-construction preamble
that precedes the loop in the source. -/
def requestRaw (env : RunEnv) : LoopOut :=
  requestRawGo env 0 (env.maxRetries + 1) none

/-- `HttpClient.request`: `requestRaw` (here the post-preamble loop, over
an already-constructed URL), then `response.json()` on the returned
response. A body that is not valid JSON makes `response.json()` reject
with a raw `SyntaxError`, which propagates untouched. -/
def request (env : RunEnv) : Except Thrown JVal :=
  match (requestRaw env).result with
  | .error t => .error t
  | .ok r =>
    match jsonParse r.bodyText with
    | some j => .ok j
    | none => .error (.raw "SyntaxError: Unexpected token in JSON")

/-- `HttpClient.requestPaginated`: identical pipeline to `request` (only the
static result type differs in the source). -/
def requestPaginated (env : RunEnv) : Except Thrown JVal :=
  match (requestRaw env).result with
  | .error t => .error t
  | .ok r =>
    match jsonParse r.bodyText with
    | some j => .ok j
    | none => .error (.raw "SyntaxError: Unexpected token in JSON")

/-- `baseUrl.replace` with the trailing-slash regex: strip every trailing
slash. -/
def stripTrailingSlashes (s : String) : String :=
  String.mk ((s.data.reverse.dropWhile (fun c => c == '/')).reverse)

/-- The query string `url.searchParams` serializes to: entries with
`undefined`/`null` values are skipped, a later value for the same key
overwrites the earlier one (`searchParams.set`), and the result is appended
as `?k=v&...` when non-empty. Percent-encoding is outside the modelled
fragment. -/
def serializeQuery (raw : String) (query : List (String × Option String)) :
    String :=
  match query.foldl
    (fun acc p =>
      match p.2 with
      | some v => objSet acc p.1 v
      | none => acc) [] with
  | [] => raw
  | entries =>
    raw ++ "?" ++ String.intercalate "&"
      (entries.map (fun p => p.1 ++ "=" ++ p.2))

/-- `HttpClient.buildUrl`: strip trailing slashes from the configured base,
force a leading slash on the path, and run the joined string through
`new URL`. The host URL constructor is modelled by the `urlValid` oracle:
when it rejects the string, `new URL` throws a raw `TypeError` — and this
happens before the retry loop's try/catch. -/
def buildUrl (urlValid : String → Bool) (baseUrl path : String)
    (query : List (String × Option String)) : Except Thrown String :=
  if urlValid (stripTrailingSlashes baseUrl ++
      (if startsWithL ['/'] path.data then path else "/" ++ path)) then
    .ok (serializeQuery (stripTrailingSlashes baseUrl ++
      (if startsWithL ['/'] path.data then path else "/" ++ path)) query)
  else
    .error (.raw "TypeError: Invalid URL")

/-- `HttpClient.requestRaw` including the URL-construction preamble
(`this.buildUrl(path, query)`), which runs outside the try/catch: a URL
`TypeError` escapes raw, before any transport call. -/
def requestRawFull (env : RunEnv) (urlValid : String → Bool)
    (baseUrl path : String) (query : List (String × Option String)) :
    LoopOut :=
  match buildUrl urlValid baseUrl path query with
  | .error t => { result := .error t, calls := 0, sleeps := [] }
  | .ok url => requestRaw { env with url := url }

/-- The kind of the typed error thrown by a loop result, if any. -/
def thrownKind : Except Thrown HttpResp → Option ErrKind
  | .error (.typed e) => some e.kindOf
  | _ => none

/-- The code of the typed error thrown by a loop result, if any. -/
def thrownCode : Except Thrown HttpResp → Option String
  | .error (.typed e) => some e.codeOf
  | _ => none

-- ============================================================================
-- SSE streaming parser / consumer (streaming.ts / AidenStream)
-- ============================================================================

/-- Build the `data` accumulator and the last `event:` type hint from the
lines of one SSE block (the field-scanning loop of
`AidenStream.parseSingleEvent`). `data: ` payloads drop six characters,
bare `data:` payloads five; `event:` values are trimmed; all other lines
(`id:`, `retry:`, comments) are ignored. -/
def scanLines (block : List Char) : List Char × List Char :=
  (splitNl [] block).foldl
    (fun acc line =>
      if startsWithL "data: ".data line then (acc.1 ++ line.drop 6, acc.2)
      else if startsWithL "data:".data line then (acc.1 ++ line.drop 5, acc.2)
      else if startsWithL "event: ".data line then (acc.1, trimL (line.drop 7))
      else if startsWithL "event:".data line then (acc.1, trimL (line.drop 6))
      else acc)
    ([], [])

/-- The synthetic delta event wrapping non-JSON data
(`\x7btype: 'delta', phase: 'do', data: \x7bcontent\x7d, timestamp,
visibility: 'prominent'\x7d`). -/
def deltaWrap (data : List Char) (now : Int) : JVal :=
  .obj [("type", .str "delta"), ("phase", .str "do"),
        ("data", .obj [("content", .str (String.mk data))]),
        ("timestamp", .num now), ("visibility", .str "prominent")]

/-- The generic wrapper for decoded JSON that is not already a stream event
(`\x7btype: eventType or 'message', phase: 'do', data, timestamp,
visibility: 'prominent'\x7d`). -/
def wrapGeneric (hint : List Char) (j : JVal) (now : Int) : JVal :=
  .obj [("type", .str (if hint.isEmpty then "message" else String.mk hint)),
        ("phase", .str "do"), ("data", j),
        ("timestamp", .num now), ("visibility", .str "prominent")]

/-- The payload-interpretation step of `parseSingleEvent`: try
`JSON.parse`; on a decoded value check `parsed.type && parsed.timestamp !==
undefined` (reading `.type` of a decoded `null` throws a `TypeError`, which
the surrounding `catch` turns into the same delta wrap as a parse failure);
emit the value as-is when the check passes, else wrap generically; wrap the
raw text as delta content when parsing fails. -/
def interpretPayload (data : List Char) (hint : List Char) (now : Int) : JVal :=
  match jsonParseL data with
  | some j =>
    match j with
    | .null => deltaWrap data now
    | _ =>
      if truthy (jsGet j "type") && (jsGet j "timestamp").isSome then j
      else wrapGeneric hint j now
  | none => deltaWrap data now

/-- `AidenStream.parseSingleEvent`: scan the block's lines, return no event
when no data accumulated, otherwise interpret the payload. -/
def parseSingleEvent (block : List Char) (now : Int) : Option JVal :=
  let scanned := scanLines block
  if scanned.1.isEmpty then none
  else some (interpretPayload scanned.1 scanned.2 now)

/-- `AidenStream.parseEvents`: split the buffer on the blank-line record
separator, keep the final (possibly incomplete) segment as the new buffer,
and parse each complete non-blank segment. -/
def parseEvents (buffer : List Char) (now : Int) :
    List JVal × List Char :=
  let blocks := splitBlankLine [] buffer
  let remaining := blocks.getLast?.getD []
  let complete := blocks.dropLast
  let parsed := complete.foldl
    (fun acc block =>
      let trimmed := trimL block
      if trimmed.isEmpty then acc
      else
        match parseSingleEvent trimmed now with
        | some ev => acc ++ [ev]
        | none => acc)
    []
  (parsed, remaining)

/-- A stream instance: the response body as a sequence of (already
UTF-8-decoded) chunks — `none` models a null body — plus the single
`consumed` flag. -/
structure AidenStream where
  body : Option (List (List Char))
  consumed : Bool := false

/-- Errors a stream consumption can raise: the plain
`Error('Stream has already been consumed...')`, or the
`ConnectionError('Response body is null -- no stream available')`. -/
inductive StreamThrown where
  | alreadyConsumed
  | noStream
deriving Repr, DecidableEq

/-- The chunk loop of the async iterator: append each chunk to the buffer,
emit the complete events, and at end-of-stream flush a non-whitespace
remainder by appending the record separator. -/
def consumeChunks (chunks : List (List Char)) (buffer : List Char)
    (now : Int) : List JVal :=
  match chunks with
  | [] =>
    if (trimL buffer).isEmpty then []
    else (parseEvents (buffer ++ ['\n', '\n']) now).1
  | c :: rest =>
    let step := parseEvents (buffer ++ c) now
    step.1 ++ consumeChunks rest step.2 now

/-- `AidenStream.[Symbol.asyncIterator]`, drained to completion: fails if
the stream was already consumed, marks it consumed, fails if the body is
null, otherwise decodes and parses every chunk. Returns the events (or the
error) together with the updated stream state. -/
def AidenStream.iterate (s : AidenStream) (now : Int) :
    Except StreamThrown (List JVal) × AidenStream :=
  if s.consumed then (.error .alreadyConsumed, s)
  else
    let s' : AidenStream := { s with consumed := true }
    match s.body with
    | none => (.error .noStream, s')
    | some chunks => (.ok (consumeChunks chunks [] now), s')

/-- Strict comparison `event.type === t` on a stream event. -/
def typeIs (ev : JVal) (t : String) : Bool :=
  match jsGet ev "type" with
  | some (.str s) => s == t
  | _ => false

mutual

/-- JS string coercion of a value, as `String(v)` / `+=` perform: arrays
join their coerced elements with commas (`Array.prototype.toString`), plain
objects coerce to `[object Object]`. -/
def jsValCoerceStr : JVal → String
  | .null => "null"
  | .bool b => if b then "true" else "false"
  | .num n => toString n
  | .str s => s
  | .arr xs => jsArrJoin xs
  | .obj _ => "[object Object]"

/-- `Array.prototype.join(",")`: elements coerced recursively, except that a
`null` element joins as the empty string. -/
def jsArrJoin : List JVal → String
  | [] => ""
  | [JVal.null] => ""
  | [x] => jsValCoerceStr x
  | JVal.null :: xs => "," ++ jsArrJoin xs
  | x :: xs => jsValCoerceStr x ++ "," ++ jsArrJoin xs

end

/-- JS string coercion of an optional value (`none` = `undefined`). -/
def jsCoerceStr (o : Option JVal) : String :=
  match o with
  | none => "undefined"
  | some v => jsValCoerceStr v

/-- `AidenStream.text`: drive the iteration and concatenate the `content`
field of every `delta` event, discarding all other events. -/
def AidenStream.text (s : AidenStream) (now : Int) :
    Except StreamThrown String × AidenStream :=
  let step := s.iterate now
  match step.1 with
  | .error e => (.error e, step.2)
  | .ok evs =>
    (.ok (evs.foldl
      (fun acc ev =>
        if typeIs ev "delta" then
          acc ++ jsCoerceStr ((jsGet ev "data").bind (fun d => jsGet d "content"))
        else acc)
      ""), step.2)

/-- The observable outcome of `AidenStream.subscribe`: the last `complete`
event's data (the return value), the error delivered to `onError` (when one
is registered), and the error thrown to the caller (when none is). -/
structure SubOut where
  complete : Option JVal
  deliveredError : Option StreamThrown
  thrownError : Option StreamThrown
deriving Repr

/-- `AidenStream.subscribe`: drive the same iteration inside a try/catch —
an iteration failure goes to the `onError` callback when one is registered
(and the accumulated completion data is still returned), otherwise it is
rethrown. The per-event callback dispatch does not affect these
observables beyond tracking the last `complete` event's data. -/
def AidenStream.subscribe (s : AidenStream) (hasOnError : Bool)
    (now : Int) : SubOut × AidenStream :=
  let step := s.iterate now
  match step.1 with
  | .ok evs =>
    ({ complete := evs.foldl
         (fun acc ev => if typeIs ev "complete" then jsGet ev "data" else acc)
         none
       deliveredError := none
       thrownError := none }, step.2)
  | .error e =>
    if hasOnError then
      ({ complete := none, deliveredError := some e, thrownError := none },
       step.2)
    else
      ({ complete := none, deliveredError := none, thrownError := some e },
       step.2)

/-- Is this fetch outcome an HTTP 429 response? -/
def FetchOutcome.is429 : FetchOutcome → Bool
  | .resp r => r.status == 429
  | _ => false

/-- Is this fetch outcome an HTTP 429 response whose body the classifier
can destructure (invalid JSON taking the well-shaped fallback, or valid
JSON with a usable `error` member)? -/
def FetchOutcome.is429WellFormed : FetchOutcome → Bool
  | .resp r => r.status == 429 && (safeParsedBody r).isSome
  | _ => false

/-- Is this fetch outcome a thrown `TypeError` mentioning `fetch` (the
transport-unreachable case)? -/
def FetchOutcome.isNetErr : FetchOutcome → Bool
  | .netErr _ => true
  | _ => false

-- ============================================================================
-- Theorems
-- ============================================================================

lemma find_objSetMap (l : List (String × String)) (k v : String)
    (hl : l.any (fun p => p.1 == k) = true) :
    List.find? (fun p => p.1 == k)
      (l.map (fun p => if p.1 == k then (k, v) else p)) = some (k, v) := by
  induction l with
  | nil => simp at hl
  | cons q t ih =>
    by_cases hq : (q.1 == k) = true
    · rw [List.map_cons, if_pos hq, List.find?_cons_of_pos _ (by simp)]
    · simp only [List.any_cons, Bool.or_eq_true] at hl
      rw [List.map_cons, if_neg hq,
        List.find?_cons_of_neg _ (by simpa using hq)]
      exact ih (hl.resolve_left hq)

lemma find_objSetMap_ne (l : List (String × String)) (k v k' : String)
    (hk : k' ≠ k) :
    List.find? (fun p => p.1 == k')
      (l.map (fun p => if p.1 == k then (k, v) else p)) =
    List.find? (fun p => p.1 == k') l := by
  induction l with
  | nil => rfl
  | cons q t ih =>
    by_cases hq : (q.1 == k) = true
    · have hq1 : q.1 = k := by exact eq_of_beq hq
      rw [List.map_cons, if_pos hq,
        List.find?_cons_of_neg _ (by simp; exact fun h => hk h.symm),
        List.find?_cons_of_neg _ (by simp [hq1]; exact fun h => hk h.symm)]
      exact ih
    · by_cases hq' : (q.1 == k') = true
      · have hcons : ∀ l : List (String × String),
            List.find? (fun p => p.1 == k') (q :: l) = some q :=
          fun l => List.find?_cons_of_pos l hq'
        rw [List.map_cons, if_neg hq, hcons, hcons]
      · rw [List.map_cons, if_neg hq,
          List.find?_cons_of_neg _ (by simpa using hq'),
          List.find?_cons_of_neg _ (by simpa using hq')]
        exact ih

lemma find_none_of_any_false (l : List (String × String)) (k : String)
    (h : l.any (fun p => p.1 == k) = false) :
    List.find? (fun p => p.1 == k) l = none := by
  induction l with
  | nil => rfl
  | cons q t ih =>
    simp only [List.any_cons, Bool.or_eq_false_iff] at h
    rw [List.find?_cons_of_neg _ (by simp [h.1])]
    exact ih h.2

lemma objGet_objSet_self (o : List (String × String)) (k v : String) :
    objGet (objSet o k v) k = some v := by
  unfold objSet objGet
  by_cases h : o.any (fun p => p.1 == k) = true
  · rw [if_pos h, find_objSetMap o k v h]; rfl
  · rw [if_neg h, List.find?_append,
      find_none_of_any_false o k (Bool.of_not_eq_true h)]
    simp [List.find?]

lemma objGet_objSet_ne (o : List (String × String)) (k v k' : String)
    (hk : k' ≠ k) :
    objGet (objSet o k v) k' = objGet o k' := by
  unfold objSet objGet
  by_cases h : o.any (fun p => p.1 == k) = true
  · rw [if_pos h, find_objSetMap_ne o k v k' hk]
  · rw [if_neg h, List.find?_append]
    have hnone : List.find? (fun p => p.1 == k') [(k, v)] = none := by
      rw [List.find?_cons_of_neg _ (by simp; exact fun h => hk h.symm)]; rfl
    rw [hnone]
    cases List.find? (fun p => p.1 == k') o <;> rfl

lemma foldl_upd_or (k : String) (hs : List (String × String)) :
    ∀ a : Option String,
      hs.foldl (fun acc p => if p.1 == k then some p.2 else acc) a =
        orO (hs.foldl (fun acc p => if p.1 == k then some p.2 else acc) none)
          a := by
  induction hs with
  | nil => intro a; rfl
  | cons q t ih =>
    intro a
    simp only [List.foldl_cons]
    rw [ih, ih (if (q.1 == k) = true then some q.2 else none)]
    by_cases hq : (q.1 == k) = true
    · rw [if_pos hq, if_pos hq]
      cases t.foldl (fun acc p => if p.1 == k then some p.2 else acc) none <;>
        rfl
    · rw [if_neg hq, if_neg hq]
      cases t.foldl (fun acc p => if p.1 == k then some p.2 else acc) none <;>
        rfl

lemma merge_lookup (k : String) (hs : List (String × String)) :
    ∀ h, objGet (hs.foldl (fun acc p => objSet acc p.1 p.2) h) k =
      orO (lastAssoc hs k) (objGet h k) := by
  induction hs with
  | nil => intro h; rfl
  | cons q t ih =>
    intro h
    simp only [List.foldl_cons]
    rw [ih (objSet h q.1 q.2)]
    have hla : lastAssoc (q :: t) k =
        orO (lastAssoc t k) (if (q.1 == k) = true then some q.2 else none) := by
      unfold lastAssoc
      simp only [List.foldl_cons]
      rw [foldl_upd_or]
    rw [hla]
    by_cases hq : (q.1 == k) = true
    · have hq1 : q.1 = k := eq_of_beq hq
      rw [if_pos hq, hq1, objGet_objSet_self]
      cases hL : lastAssoc t k <;> rfl
    · have hne : k ≠ q.1 := fun hc => hq (by simp [hc])
      rw [if_neg hq, objGet_objSet_ne h q.1 q.2 k hne]
      cases hL : lastAssoc t k <;> rfl

lemma lastAssoc_none_of_any_false (hs : List (String × String)) (k : String)
    (h : hs.any (fun p => p.1 == k) = false) : lastAssoc hs k = none := by
  induction hs with
  | nil => rfl
  | cons q t ih =>
    simp only [List.any_cons, Bool.or_eq_false_iff] at h
    unfold lastAssoc
    simp only [List.foldl_cons]
    rw [foldl_upd_or, if_neg (by simp [h.1])]
    have ht := ih h.2
    unfold lastAssoc at ht
    rw [ht]
    rfl

lemma objGet_buildHeaders_no_custom (cfg : ClientCfg) (opts : ReqOpts)
    (k : String) (h : customHas opts k = false) :
    objGet (buildHeaders cfg opts) k = objGet (baseHeaders cfg opts) k := by
  unfold buildHeaders
  cases hh : opts.headers with
  | none => rfl
  | some hs =>
    unfold customHas at h
    rw [hh] at h
    rw [merge_lookup, lastAssoc_none_of_any_false hs k h]
    rfl

lemma baseHeaders_auth (cfg : ClientCfg) (opts : ReqOpts) :
    objGet (baseHeaders cfg opts) "Authorization" =
      some ("Bearer " ++ cfg.apiKey) := by
  unfold baseHeaders
  cases hu : (match opts.userId with
              | some u => some u
              | none => cfg.userId : Option String) with
  | none => rfl
  | some u =>
    dsimp only
    by_cases he : u = ""
    · rw [if_pos he]; rfl
    · rw [if_neg he, objGet_objSet_ne _ _ _ _ (by decide)]; rfl

lemma baseHeaders_uid (cfg : ClientCfg) (opts : ReqOpts) :
    (objGet (baseHeaders cfg opts) "X-User-ID").isSome =
      userIdTruthy cfg opts := by
  unfold baseHeaders userIdTruthy effUserId
  cases hu : (match opts.userId with
              | some u => some u
              | none => cfg.userId : Option String) with
  | none => rfl
  | some u =>
    dsimp only
    by_cases he : u = ""
    · rw [if_pos he]
      subst he
      rfl
    · rw [if_neg he, objGet_objSet_self]
      simp [he]

/-- C3: for every status and well-shaped error body, `createErrorFromResponse`
returns (it is a total function, so it never throws) an error of the kind the
spec prescribes for that status, whose `status` field equals the input status
(the generic error retains the raw status and code); for 429 `retryAfter` is
the supplied value or 60000; `requestId` defaults to `"unknown"` when `meta`
lacks one. -/
theorem claim_C3_classifier_refines_spec (status : Nat) (body : ErrorBody)
    (ra : Option Int) :
    (createErrorFromResponse status body ra).kindOf = specErrKind status ∧
    (createErrorFromResponse status body ra).statusOf = status ∧
    (createErrorFromResponse status body ra).retryAfterOf =
      (if status = 429 then some (ra.getD 60000) else none) ∧
    (createErrorFromResponse status body ra).requestIdOf =
      (body.meta.bind RespMeta.requestId).getD "unknown" ∧
    (createErrorFromResponse status body ra).codeOf =
      specErrCode status body.error.code := by
  unfold createErrorFromResponse specErrKind specErrCode
  by_cases h1 : status = 400
  · simp only [if_pos h1]; subst h1; exact ⟨rfl, rfl, rfl, rfl, rfl⟩
  simp only [if_neg h1]
  by_cases h2 : status = 401
  · simp only [if_pos h2]; subst h2; exact ⟨rfl, rfl, rfl, rfl, rfl⟩
  simp only [if_neg h2]
  by_cases h3 : status = 403
  · simp only [if_pos h3]; subst h3; exact ⟨rfl, rfl, rfl, rfl, rfl⟩
  simp only [if_neg h3]
  by_cases h4 : status = 404
  · simp only [if_pos h4]; subst h4; exact ⟨rfl, rfl, rfl, rfl, rfl⟩
  simp only [if_neg h4]
  by_cases h5 : status = 409
  · simp only [if_pos h5]; subst h5; exact ⟨rfl, rfl, rfl, rfl, rfl⟩
  simp only [if_neg h5]
  by_cases h6 : status = 422
  · simp only [if_pos h6]; subst h6; exact ⟨rfl, rfl, rfl, rfl, rfl⟩
  simp only [if_neg h6]
  by_cases h7 : status = 429
  · simp only [if_pos h7]; subst h7; exact ⟨rfl, rfl, rfl, rfl, rfl⟩
  simp only [if_neg h7]
  by_cases h8 : status = 500
  · simp only [if_pos h8]; subst h8; exact ⟨rfl, rfl, rfl, rfl, rfl⟩
  simp only [if_neg h8]
  by_cases h9 : status = 502
  · simp only [if_pos h9]; subst h9; exact ⟨rfl, rfl, rfl, rfl, rfl⟩
  simp only [if_neg h9]
  by_cases h10 : status = 503
  · simp only [if_pos h10]; subst h10; exact ⟨rfl, rfl, rfl, rfl, rfl⟩
  simp only [if_neg h10]
  by_cases h11 : status = 504
  · simp only [if_pos h11]; subst h11; exact ⟨rfl, rfl, rfl, rfl, rfl⟩
  simp only [if_neg h11]
  exact ⟨rfl, rfl, rfl, rfl, rfl⟩

/-- C10: when the caller supplies a cancellation signal, `fetchWithTimeout`
performs the fetch with that signal alone — no timeout controller is
synthesized and no timer is armed, so the configured timeout is not
enforced for that call. -/
theorem claim_C10_caller_signal_disables_timeout (init : ReqInit)
    (timeoutMs : Int) (s : String) (h : init.signal = some s) :
    fetchWithTimeout init timeoutMs =
      { callerSignal := some s
        synthesizedController := false
        timerMs := none } := by
  simp [fetchWithTimeout, h]

/-- Witness for C10 at a concrete caller-supplied signal. -/
theorem claim_C10_caller_signal_disables_timeout_witness :
    fetchWithTimeout { signal := some "caller-signal" } 30000 =
      { callerSignal := some "caller-signal"
        synthesizedController := false
        timerMs := none } :=
  claim_C10_caller_signal_disables_timeout _ 30000 "caller-signal" rfl

/-- C5 counterexample: (a) the SSE data string `null` JSON-decodes to `null`
— a decoded value lacking the event shape — yet it is wrapped as a synthetic
delta event carrying the raw string, not as the claimed
`\x7btype: 'message', data: null, ...\x7d` wrap; (b) a decoded object
containing both a `type` field and a defined `timestamp` field is not
emitted as-is when its `type` is falsy (the empty string) — it is wrapped
generically instead. -/
theorem claim_C5_payload_interpretation_counterexample :
    parseSingleEvent "data: null".data 7 =
      some (.obj [("type", .str "delta"), ("phase", .str "do"),
                  ("data", .obj [("content", .str "null")]),
                  ("timestamp", .num 7), ("visibility", .str "prominent")]) ∧
    parseSingleEvent "data: \x7b\"type\":\"\",\"timestamp\":1\x7d".data 7 =
      some (.obj [("type", .str "message"), ("phase", .str "do"),
                  ("data", .obj [("type", .str ""), ("timestamp", .num 1)]),
                  ("timestamp", .num 7), ("visibility", .str "prominent")]) :=
  ⟨rfl, rfl⟩

/-- C5 amended: for every accumulated SSE data string — if it JSON-decodes
to a non-null value with a truthy `type` field and a defined `timestamp`
field it is emitted as-is; if it decodes to any other non-null value it is
wrapped as `\x7btype: hint or 'message', phase: 'do', data, timestamp: now,
visibility: 'prominent'\x7d`; if it decodes to `null` (reading `.type`
throws, and the catch treats it like a parse failure) or fails to decode,
the raw string is wrapped as a synthetic delta event. -/
theorem claim_C5_payload_interpretation_amended (block : List Char)
    (now : Int) (j : JVal) :
    ((scanLines block).1 ≠ [] →
      jsonParseL (scanLines block).1 = some j →
      j ≠ .null →
      truthy (jsGet j "type") = true →
      (jsGet j "timestamp").isSome = true →
      parseSingleEvent block now = some j) ∧
    ((scanLines block).1 ≠ [] →
      jsonParseL (scanLines block).1 = some j →
      j ≠ .null →
      (truthy (jsGet j "type") && (jsGet j "timestamp").isSome) = false →
      parseSingleEvent block now =
        some (wrapGeneric (scanLines block).2 j now)) ∧
    ((scanLines block).1 ≠ [] →
      jsonParseL (scanLines block).1 = some .null →
      parseSingleEvent block now =
        some (deltaWrap (scanLines block).1 now)) ∧
    ((scanLines block).1 ≠ [] →
      jsonParseL (scanLines block).1 = none →
      parseSingleEvent block now =
        some (deltaWrap (scanLines block).1 now)) := by
  refine ⟨fun hne hp hnull ht hts => ?_, fun hne hp hnull hf => ?_,
    fun hne hp => ?_, fun hne hp => ?_⟩ <;>
      simp only [parseSingleEvent, interpretPayload, List.isEmpty_eq_true, hne,
        if_false, hp, ite_false]
  · cases j <;> simp_all
  · cases j <;> simp_all

/-- Witness for C5 amended: the non-JSON payload `hi` is wrapped as a
synthetic delta event. -/
theorem claim_C5_payload_interpretation_amended_witness :
    parseSingleEvent "data: hi".data 5 =
      some (deltaWrap (scanLines "data: hi".data).1 5) :=
  (claim_C5_payload_interpretation_amended "data: hi".data 5 .null).2.2.2
    (by decide) (by rfl)

/-- C8: iterating a stream whose bytes hold the four SSE records
`connected`, `delta("Hello")`, `delta(" World")`, `complete` yields exactly
those 4 events in arrival order with the deltas' `data.content` equal to
`"Hello"` and `" World"`; and `text()` over the three delta records
`"Hello"`, `" "`, `"World"` returns `"Hello World"`, discarding non-delta
events. -/
theorem claim_C8_stream_order_and_text :
    (AidenStream.iterate
      { body := some [("data: \x7b\"type\":\"connected\",\"timestamp\":1\x7d\n\n" ++
                       "data: \x7b\"type\":\"delta\",\"data\":\x7b\"content\":\"Hello\"\x7d,\"timestamp\":2\x7d\n\n" ++
                       "data: \x7b\"type\":\"delta\",\"data\":\x7b\"content\":\" World\"\x7d,\"timestamp\":3\x7d\n\n" ++
                       "data: \x7b\"type\":\"complete\",\"timestamp\":4\x7d\n\n").data] }
      0).1 =
      .ok [.obj [("type", .str "connected"), ("timestamp", .num 1)],
           .obj [("type", .str "delta"),
                 ("data", .obj [("content", .str "Hello")]),
                 ("timestamp", .num 2)],
           .obj [("type", .str "delta"),
                 ("data", .obj [("content", .str " World")]),
                 ("timestamp", .num 3)],
           .obj [("type", .str "complete"), ("timestamp", .num 4)]] ∧
    (AidenStream.text
      { body := some [("data: \x7b\"type\":\"connected\",\"timestamp\":0\x7d\n\n" ++
                       "data: \x7b\"type\":\"delta\",\"data\":\x7b\"content\":\"Hello\"\x7d,\"timestamp\":1\x7d\n\n" ++
                       "data: \x7b\"type\":\"delta\",\"data\":\x7b\"content\":\" \"\x7d,\"timestamp\":2\x7d\n\n" ++
                       "data: \x7b\"type\":\"delta\",\"data\":\x7b\"content\":\"World\"\x7d,\"timestamp\":3\x7d\n\n").data] }
      0).1 = .ok "Hello World" :=
  ⟨rfl, rfl⟩

/-- C4: every stream is single-pass — any consumption (iteration, subscribe,
or text) marks the stream consumed, and on a stream already consumed every
consumption mode fails with the "already consumed" error (delivered to the
error callback when `subscribe` has one registered, thrown otherwise) rather
than silently yielding nothing. -/
theorem claim_C4_single_pass (s : AidenStream) (b : Bool) (now now2 : Int) :
    ((s.iterate now).2.consumed = true ∧
     (AidenStream.text s now).2.consumed = true ∧
     (AidenStream.subscribe s b now).2.consumed = true) ∧
    (s.consumed = true →
      (s.iterate now2).1 = .error .alreadyConsumed ∧
      (AidenStream.text s now2).1 = .error .alreadyConsumed ∧
      AidenStream.subscribe s false now2 =
        ({ complete := none, deliveredError := none,
           thrownError := some .alreadyConsumed }, s) ∧
      AidenStream.subscribe s true now2 =
        ({ complete := none, deliveredError := some .alreadyConsumed,
           thrownError := none }, s)) := by
  constructor
  · refine ⟨?_, ?_, ?_⟩ <;>
      cases b <;>
        cases hc : s.consumed <;>
          cases hb : s.body <;>
            simp [AidenStream.iterate, AidenStream.text, AidenStream.subscribe,
              hc, hb]
  · intro hc
    refine ⟨?_, ?_, ?_, ?_⟩ <;>
      simp [AidenStream.iterate, AidenStream.text, AidenStream.subscribe, hc]

/-- Witness for C4 at a concrete already-consumed stream. -/
theorem claim_C4_single_pass_witness :
    (AidenStream.iterate { body := some [], consumed := true } 0).1 =
      .error .alreadyConsumed ∧
    (AidenStream.text { body := some [], consumed := true } 0).1 =
      .error .alreadyConsumed :=
  ⟨((claim_C4_single_pass { body := some [], consumed := true } false 0 0).2
      rfl).1,
   ((claim_C4_single_pass { body := some [], consumed := true } false 0 0).2
      rfl).2.1⟩

lemma go_resp_ok (env : RunEnv) (attempt fuel : Nat) (le : Option SdkError)
    (r : HttpResp) (hT : env.transport attempt = .resp r)
    (hok : r.isOk = true) :
    requestRawGo env attempt (fuel + 1) le =
      { result := .ok r, calls := 1, sleeps := [] } := by
  simp only [requestRawGo, hT, hok, if_true]

lemma go_resp_429_retry (env : RunEnv) (attempt fuel : Nat)
    (le : Option SdkError) (r : HttpResp) (body : ErrorBody)
    (hT : env.transport attempt = .resp r)
    (h429 : r.status = 429) (hlt : attempt < env.maxRetries)
    (hB : safeParsedBody r = some body) :
    requestRawGo env attempt (fuel + 1) le =
      { result := (requestRawGo env (attempt + 1) fuel
          (some (createErrorFromResponse r.status body
            (some (parseRetryAfter r env.dateParse env.now))))).result
        calls := (requestRawGo env (attempt + 1) fuel
          (some (createErrorFromResponse r.status body
            (some (parseRetryAfter r env.dateParse env.now))))).calls + 1
        sleeps := min ((parseRetryAfter r env.dateParse env.now : ℚ))
            (calculateBackoff attempt (env.jitter attempt)) ::
          (requestRawGo env (attempt + 1) fuel
            (some (createErrorFromResponse r.status body
              (some (parseRetryAfter r env.dateParse env.now))))).sleeps } := by
  have hok : r.isOk = false := by
    simp [HttpResp.isOk, h429]
  simp only [requestRawGo, hT, hok, Bool.false_eq_true, if_false, h429,
    if_true, hlt, and_true, if_pos, hB]
  norm_num

lemma go_resp_429_retry_badbody (env : RunEnv) (attempt fuel : Nat)
    (le : Option SdkError) (r : HttpResp)
    (hT : env.transport attempt = .resp r)
    (h429 : r.status = 429) (hlt : attempt < env.maxRetries)
    (hB : safeParsedBody r = none) :
    requestRawGo env attempt (fuel + 1) le =
      { result := (requestRawGo env (attempt + 1) fuel
          (some connDestructure)).result
        calls := (requestRawGo env (attempt + 1) fuel
          (some connDestructure)).calls + 1
        sleeps := min ((parseRetryAfter r env.dateParse env.now : ℚ))
            (calculateBackoff attempt (env.jitter attempt)) ::
          calculateBackoff attempt (env.jitter attempt) ::
          (requestRawGo env (attempt + 1) fuel
            (some connDestructure)).sleeps } := by
  have hok : r.isOk = false := by
    simp [HttpResp.isOk, h429]
  simp only [requestRawGo, hT, hok, Bool.false_eq_true, if_false, h429,
    if_true, hlt, and_true, if_pos, hB]
  norm_num

lemma go_resp_429_final (env : RunEnv) (attempt fuel : Nat)
    (le : Option SdkError) (r : HttpResp) (body : ErrorBody)
    (hT : env.transport attempt = .resp r)
    (h429 : r.status = 429) (hlt : ¬ attempt < env.maxRetries)
    (hB : safeParsedBody r = some body) :
    requestRawGo env attempt (fuel + 1) le =
      { result := .error (.typed (createErrorFromResponse r.status body
          (some (parseRetryAfter r env.dateParse env.now))))
        calls := 1
        sleeps := [] } := by
  have hok : r.isOk = false := by
    simp [HttpResp.isOk, h429]
  simp only [requestRawGo, hT, hok, Bool.false_eq_true, if_false, h429]
  norm_num [hlt, hB]

lemma go_abort (env : RunEnv) (attempt fuel : Nat) (le : Option SdkError)
    (hT : env.transport attempt = .abortErr) :
    requestRawGo env attempt (fuel + 1) le =
      { result := .error (.typed (.timeout
          ("Request timed out after " ++ toString env.timeout ++ "ms")
          env.timeout))
        calls := 1
        sleeps := [] } := by
  simp only [requestRawGo, hT]

lemma go_netErr_retry (env : RunEnv) (attempt fuel : Nat)
    (le : Option SdkError) (msg : String)
    (hT : env.transport attempt = .netErr msg)
    (hlt : attempt < env.maxRetries) :
    requestRawGo env attempt (fuel + 1) le =
      { result := (requestRawGo env (attempt + 1) fuel
          (some (SdkError.connection ("Failed to connect to " ++ env.url)
            (some "TypeError")))).result
        calls := (requestRawGo env (attempt + 1) fuel
          (some (SdkError.connection ("Failed to connect to " ++ env.url)
            (some "TypeError")))).calls + 1
        sleeps := calculateBackoff attempt (env.jitter attempt) ::
          (requestRawGo env (attempt + 1) fuel
            (some (SdkError.connection ("Failed to connect to " ++ env.url)
              (some "TypeError")))).sleeps } := by
  simp only [requestRawGo, hT, hlt, if_true]

lemma go_netErr_final (env : RunEnv) (attempt fuel : Nat)
    (le : Option SdkError) (msg : String)
    (hT : env.transport attempt = .netErr msg)
    (hlt : ¬ attempt < env.maxRetries) :
    requestRawGo env attempt (fuel + 1) le =
      { result := .error (.typed (SdkError.connection
          ("Failed to connect to " ++ env.url) (some "TypeError")))
        calls := 1
        sleeps := [] } := by
  simp only [requestRawGo, hT, hlt, if_false]

lemma go_zero (env : RunEnv) (a : Nat) (le : Option SdkError) :
    requestRawGo env a 0 le =
      { result := .error (.typed (le.getD
          (.connection "Request failed after all retries" none)))
        calls := 0
        sleeps := [] } := by
  simp only [requestRawGo]

lemma go_resp_204 (env : RunEnv) (attempt fuel : Nat) (le : Option SdkError)
    (r : HttpResp) (hT : env.transport attempt = .resp r)
    (hok : r.isOk = false) (h204 : r.status = 204) :
    requestRawGo env attempt (fuel + 1) le =
      { result := .ok r, calls := 1, sleeps := [] } := by
  simp only [requestRawGo, hT, hok, Bool.false_eq_true, if_false, h204,
    if_true]

lemma go_resp_5xx_retry (env : RunEnv) (attempt fuel : Nat)
    (le : Option SdkError) (r : HttpResp) (body : ErrorBody)
    (hT : env.transport attempt = .resp r)
    (hok : r.isOk = false) (h204 : ¬ r.status = 204)
    (hn429 : ¬ (r.status = 429 ∧ attempt < env.maxRetries))
    (h5 : 500 ≤ r.status ∧ attempt < env.maxRetries)
    (hB : safeParsedBody r = some body) :
    requestRawGo env attempt (fuel + 1) le =
      { result := (requestRawGo env (attempt + 1) fuel
          (some (createErrorFromResponse r.status body none))).result
        calls := (requestRawGo env (attempt + 1) fuel
          (some (createErrorFromResponse r.status body none))).calls + 1
        sleeps := calculateBackoff attempt (env.jitter attempt) ::
          (requestRawGo env (attempt + 1) fuel
            (some (createErrorFromResponse r.status body none))).sleeps } := by
  simp only [requestRawGo, hT, hok, Bool.false_eq_true, if_false,
    if_neg h204, if_neg hn429, if_pos h5, hB]

lemma go_resp_5xx_retry_badbody (env : RunEnv) (attempt fuel : Nat)
    (le : Option SdkError) (r : HttpResp)
    (hT : env.transport attempt = .resp r)
    (hok : r.isOk = false) (h204 : ¬ r.status = 204)
    (hn429 : ¬ (r.status = 429 ∧ attempt < env.maxRetries))
    (h5 : 500 ≤ r.status ∧ attempt < env.maxRetries)
    (hB : safeParsedBody r = none) :
    requestRawGo env attempt (fuel + 1) le =
      { result := (requestRawGo env (attempt + 1) fuel
          (some connDestructure)).result
        calls := (requestRawGo env (attempt + 1) fuel
          (some connDestructure)).calls + 1
        sleeps := calculateBackoff attempt (env.jitter attempt) ::
          calculateBackoff attempt (env.jitter attempt) ::
          (requestRawGo env (attempt + 1) fuel
            (some connDestructure)).sleeps } := by
  simp only [requestRawGo, hT, hok, Bool.false_eq_true, if_false,
    if_neg h204, if_neg hn429, if_pos h5, hB]

lemma go_resp_throw (env : RunEnv) (attempt fuel : Nat) (le : Option SdkError)
    (r : HttpResp) (body : ErrorBody) (hT : env.transport attempt = .resp r)
    (hok : r.isOk = false) (h204 : ¬ r.status = 204)
    (hn429 : ¬ (r.status = 429 ∧ attempt < env.maxRetries))
    (hn5 : ¬ (500 ≤ r.status ∧ attempt < env.maxRetries))
    (hB : safeParsedBody r = some body) :
    requestRawGo env attempt (fuel + 1) le =
      { result := .error (.typed (createErrorFromResponse r.status body
          (if r.status = 429
           then some (parseRetryAfter r env.dateParse env.now)
           else none)))
        calls := 1
        sleeps := [] } := by
  simp only [requestRawGo, hT, hok, Bool.false_eq_true, if_false,
    if_neg h204, if_neg hn429, if_neg hn5, hB]

lemma go_resp_throw_badbody_retry (env : RunEnv) (attempt fuel : Nat)
    (le : Option SdkError) (r : HttpResp)
    (hT : env.transport attempt = .resp r)
    (hok : r.isOk = false) (h204 : ¬ r.status = 204)
    (hn429 : ¬ (r.status = 429 ∧ attempt < env.maxRetries))
    (hn5 : ¬ (500 ≤ r.status ∧ attempt < env.maxRetries))
    (hB : safeParsedBody r = none) (hlt : attempt < env.maxRetries) :
    requestRawGo env attempt (fuel + 1) le =
      { result := (requestRawGo env (attempt + 1) fuel
          (some connDestructure)).result
        calls := (requestRawGo env (attempt + 1) fuel
          (some connDestructure)).calls + 1
        sleeps := calculateBackoff attempt (env.jitter attempt) ::
          (requestRawGo env (attempt + 1) fuel
            (some connDestructure)).sleeps } := by
  simp only [requestRawGo, hT, hok, Bool.false_eq_true, if_false,
    if_neg h204, if_neg hn429, if_neg hn5, hB, if_pos hlt]

lemma go_resp_throw_badbody_final (env : RunEnv) (attempt fuel : Nat)
    (le : Option SdkError) (r : HttpResp)
    (hT : env.transport attempt = .resp r)
    (hok : r.isOk = false) (h204 : ¬ r.status = 204)
    (hn429 : ¬ (r.status = 429 ∧ attempt < env.maxRetries))
    (hn5 : ¬ (500 ≤ r.status ∧ attempt < env.maxRetries))
    (hB : safeParsedBody r = none) (hlt : ¬ attempt < env.maxRetries) :
    requestRawGo env attempt (fuel + 1) le =
      { result := .error (.typed connDestructure)
        calls := 1
        sleeps := [] } := by
  simp only [requestRawGo, hT, hok, Bool.false_eq_true, if_false,
    if_neg h204, if_neg hn429, if_neg hn5, hB, if_neg hlt]

lemma go_otherErr_retry (env : RunEnv) (attempt fuel : Nat)
    (le : Option SdkError) (msg : String)
    (hT : env.transport attempt = .otherErr msg)
    (hlt : attempt < env.maxRetries) :
    requestRawGo env attempt (fuel + 1) le =
      { result := (requestRawGo env (attempt + 1) fuel
          (some (SdkError.connection ("Request failed: " ++ msg)
            none))).result
        calls := (requestRawGo env (attempt + 1) fuel
          (some (SdkError.connection ("Request failed: " ++ msg)
            none))).calls + 1
        sleeps := calculateBackoff attempt (env.jitter attempt) ::
          (requestRawGo env (attempt + 1) fuel
            (some (SdkError.connection ("Request failed: " ++ msg)
              none))).sleeps } := by
  simp only [requestRawGo, hT, hlt, if_true]

lemma go_otherErr_final (env : RunEnv) (attempt fuel : Nat)
    (le : Option SdkError) (msg : String)
    (hT : env.transport attempt = .otherErr msg)
    (hlt : ¬ attempt < env.maxRetries) :
    requestRawGo env attempt (fuel + 1) le =
      { result := .error (.typed (SdkError.connection
          ("Request failed: " ++ msg) none))
        calls := 1
        sleeps := [] } := by
  simp only [requestRawGo, hT, hlt, if_false]

lemma createError_429 (body : ErrorBody) (ra : Int) :
    createErrorFromResponse 429 body (some ra) =
      .rateLimit body.error.message (reqIdOfBody body) ra body.meta
        body.error.details := by
  norm_num [createErrorFromResponse]

lemma requestRawGo_typed (env : RunEnv) :
    ∀ (fuel attempt : Nat) (le : Option SdkError) (t : Thrown),
      (requestRawGo env attempt fuel le).result = .error t →
      t.isTyped = true := by
  intro fuel
  induction fuel with
  | zero =>
    intro a le t h
    rw [go_zero] at h
    injection h with h1
    rw [← h1]
    rfl
  | succ fuel ih =>
    intro a le t h
    cases hT : env.transport a with
    | resp r =>
      by_cases hok : r.isOk = true
      · rw [go_resp_ok env a fuel le r hT hok] at h
        exact absurd h (by simp)
      · have hok' : r.isOk = false := Bool.of_not_eq_true hok
        by_cases h204 : r.status = 204
        · rw [go_resp_204 env a fuel le r hT hok' h204] at h
          exact absurd h (by simp)
        · by_cases h429 : r.status = 429 ∧ a < env.maxRetries
          · cases hB : safeParsedBody r with
            | some body =>
              rw [go_resp_429_retry env a fuel le r body hT h429.1 h429.2
                hB] at h
              exact ih (a + 1) _ t h
            | none =>
              rw [go_resp_429_retry_badbody env a fuel le r hT h429.1 h429.2
                hB] at h
              exact ih (a + 1) _ t h
          · by_cases h5 : 500 ≤ r.status ∧ a < env.maxRetries
            · cases hB : safeParsedBody r with
              | some body =>
                rw [go_resp_5xx_retry env a fuel le r body hT hok' h204 h429
                  h5 hB] at h
                exact ih (a + 1) _ t h
              | none =>
                rw [go_resp_5xx_retry_badbody env a fuel le r hT hok' h204
                  h429 h5 hB] at h
                exact ih (a + 1) _ t h
            · cases hB : safeParsedBody r with
              | some body =>
                rw [go_resp_throw env a fuel le r body hT hok' h204 h429 h5
                  hB] at h
                injection h with h1
                rw [← h1]
                rfl
              | none =>
                by_cases hlt : a < env.maxRetries
                · rw [go_resp_throw_badbody_retry env a fuel le r hT hok'
                    h204 h429 h5 hB hlt] at h
                  exact ih (a + 1) _ t h
                · rw [go_resp_throw_badbody_final env a fuel le r hT hok'
                    h204 h429 h5 hB hlt] at h
                  injection h with h1
                  rw [← h1]
                  rfl
    | netErr msg =>
      by_cases hlt : a < env.maxRetries
      · rw [go_netErr_retry env a fuel le msg hT hlt] at h
        exact ih (a + 1) _ t h
      · rw [go_netErr_final env a fuel le msg hT hlt] at h
        injection h with h1
        rw [← h1]
        rfl
    | abortErr =>
      rw [go_abort env a fuel le hT] at h
      injection h with h1
      rw [← h1]
      rfl
    | otherErr msg =>
      by_cases hlt : a < env.maxRetries
      · rw [go_otherErr_retry env a fuel le msg hT hlt] at h
        exact ih (a + 1) _ t h
      · rw [go_otherErr_final env a fuel le msg hT hlt] at h
        injection h with h1
        rw [← h1]
        rfl

lemma all429_calls_loop (env : RunEnv)
    (h : ∀ i, (env.transport i).is429 = true) :
    ∀ (f a : Nat) (le : Option SdkError),
      a + f = env.maxRetries + 1 → 1 ≤ f →
      (requestRawGo env a f le).calls = f := by
  intro f
  induction f with
  | zero => intro a le hsum hf; exact absurd hf (by omega)
  | succ f ih =>
    intro a le hsum hf
    obtain ⟨r, hT, h429⟩ : ∃ r, env.transport a = .resp r ∧ r.status = 429 := by
      have h0 := h a
      cases hTa : env.transport a with
      | resp r =>
        rw [hTa] at h0
        exact ⟨r, rfl, by simpa [FetchOutcome.is429] using h0⟩
      | netErr m => rw [hTa] at h0; simp [FetchOutcome.is429] at h0
      | abortErr => rw [hTa] at h0; simp [FetchOutcome.is429] at h0
      | otherErr m => rw [hTa] at h0; simp [FetchOutcome.is429] at h0
    by_cases hlt : a < env.maxRetries
    · cases hB : safeParsedBody r with
      | some body =>
        rw [go_resp_429_retry env a f le r body hT h429 hlt hB]
        have hrec := ih (a + 1)
          (some (createErrorFromResponse r.status body
            (some (parseRetryAfter r env.dateParse env.now))))
          (by omega) (by omega)
        simp only []
        omega
      | none =>
        rw [go_resp_429_retry_badbody env a f le r hT h429 hlt hB]
        have hrec := ih (a + 1) (some connDestructure) (by omega) (by omega)
        simp only []
        omega
    · have hf0 : f = 0 := by omega
      subst hf0
      have hok : r.isOk = false := by simp [HttpResp.isOk, h429]
      have hn429 : ¬ (r.status = 429 ∧ a < env.maxRetries) :=
        fun hc => hlt hc.2
      have hn5 : ¬ (500 ≤ r.status ∧ a < env.maxRetries) :=
        fun hc => hlt hc.2
      have h204 : ¬ r.status = 204 := by omega
      cases hB : safeParsedBody r with
      | some body =>
        rw [go_resp_throw env a 0 le r body hT hok h204 hn429 hn5 hB]
      | none =>
        rw [go_resp_throw_badbody_final env a 0 le r hT hok h204 hn429 hn5
          hB hlt]

lemma all429wf_loop (env : RunEnv)
    (h : ∀ i, (env.transport i).is429WellFormed = true) :
    ∀ (f a : Nat) (le : Option SdkError),
      a + f = env.maxRetries + 1 → 1 ≤ f →
      thrownKind (requestRawGo env a f le).result = some .rateLimit ∧
      thrownCode (requestRawGo env a f le).result = some "RATE_LIMITED" ∧
      (requestRawGo env a f le).calls = f := by
  intro f
  induction f with
  | zero => intro a le hsum hf; exact absurd hf (by omega)
  | succ f ih =>
    intro a le hsum hf
    obtain ⟨r, hT, h429, body, hB⟩ :
        ∃ r, env.transport a = .resp r ∧ r.status = 429 ∧
          ∃ body, safeParsedBody r = some body := by
      have h0 := h a
      cases hTa : env.transport a with
      | resp r =>
        rw [hTa] at h0
        simp only [FetchOutcome.is429WellFormed, Bool.and_eq_true,
          beq_iff_eq, Option.isSome_iff_exists] at h0
        exact ⟨r, rfl, h0.1, h0.2⟩
      | netErr m => rw [hTa] at h0; simp [FetchOutcome.is429WellFormed] at h0
      | abortErr => rw [hTa] at h0; simp [FetchOutcome.is429WellFormed] at h0
      | otherErr m =>
        rw [hTa] at h0; simp [FetchOutcome.is429WellFormed] at h0
    by_cases hlt : a < env.maxRetries
    · rw [go_resp_429_retry env a f le r body hT h429 hlt hB]
      have hrec := ih (a + 1)
        (some (createErrorFromResponse r.status body
          (some (parseRetryAfter r env.dateParse env.now))))
        (by omega) (by omega)
      refine ⟨hrec.1, hrec.2.1, ?_⟩
      have := hrec.2.2
      simp only []
      omega
    · have hf0 : f = 0 := by omega
      subst hf0
      rw [go_resp_429_final env a 0 le r body hT h429 hlt hB]
      rw [h429, createError_429]
      exact ⟨rfl, rfl, rfl⟩

lemma buildUrl_error_shape (urlValid : String → Bool) (baseUrl path : String)
    (query : List (String × Option String)) (t : Thrown)
    (h : buildUrl urlValid baseUrl path query = .error t) :
    t = .raw "TypeError: Invalid URL" := by
  unfold buildUrl at h
  by_cases hv : urlValid (stripTrailingSlashes baseUrl ++
      (if startsWithL ['/'] path.data then path else "/" ++ path)) = true
  · rw [if_pos hv] at h
    exact absurd h (by simp)
  · rw [if_neg hv] at h
    injection h with h1
    exact h1.symm

lemma netAbort_loop (env : RunEnv) :
    ∀ (k a f : Nat) (le : Option SdkError),
      a + f = env.maxRetries + 1 →
      a + k ≤ env.maxRetries →
      (∀ i, i < k → (env.transport (a + i)).isNetErr = true) →
      env.transport (a + k) = .abortErr →
      thrownKind (requestRawGo env a f le).result = some .timeout ∧
      (requestRawGo env a f le).calls = k + 1 := by
  intro k
  induction k with
  | zero =>
    intro a f le hsum hbound hnet hT
    obtain ⟨f', rfl⟩ : ∃ f', f = f' + 1 := ⟨f - 1, by omega⟩
    rw [go_abort env a f' le (by simpa using hT)]
    exact ⟨rfl, rfl⟩
  | succ k ih =>
    intro a f le hsum hbound hnet hT
    obtain ⟨f', rfl⟩ : ∃ f', f = f' + 1 := ⟨f - 1, by omega⟩
    have h0 : (env.transport a).isNetErr = true := by
      simpa using hnet 0 (by omega)
    obtain ⟨m, hm⟩ : ∃ m, env.transport a = .netErr m := by
      cases hTa : env.transport a with
      | netErr m => exact ⟨m, rfl⟩
      | resp r => rw [hTa] at h0; simp [FetchOutcome.isNetErr] at h0
      | abortErr => rw [hTa] at h0; simp [FetchOutcome.isNetErr] at h0
      | otherErr m => rw [hTa] at h0; simp [FetchOutcome.isNetErr] at h0
    have hlt : a < env.maxRetries := by omega
    rw [go_netErr_retry env a f' le m hm hlt]
    have hrec := ih (a + 1) f'
      (some (SdkError.connection ("Failed to connect to " ++ env.url)
        (some "TypeError")))
      (by omega) (by omega)
      (fun i hi => by
        have := hnet (i + 1) (by omega)
        rw [show a + (i + 1) = a + 1 + i by omega] at this
        exact this)
      (by
        rw [show a + 1 + k = a + (k + 1) by omega]
        exact hT)
    refine ⟨hrec.1, ?_⟩
    have := hrec.2
    simp only []
    omega

lemma allNet_loop (env : RunEnv)
    (h : ∀ i, (env.transport i).isNetErr = true) :
    ∀ (f a : Nat) (le : Option SdkError),
      a + f = env.maxRetries + 1 → 1 ≤ f →
      thrownKind (requestRawGo env a f le).result = some .connection ∧
      (requestRawGo env a f le).calls = f := by
  intro f
  induction f with
  | zero => intro a le hsum hf; exact absurd hf (by omega)
  | succ f ih =>
    intro a le hsum hf
    obtain ⟨m, hm⟩ : ∃ m, env.transport a = .netErr m := by
      have h0 := h a
      cases hTa : env.transport a with
      | netErr m => exact ⟨m, rfl⟩
      | resp r => rw [hTa] at h0; simp [FetchOutcome.isNetErr] at h0
      | abortErr => rw [hTa] at h0; simp [FetchOutcome.isNetErr] at h0
      | otherErr m => rw [hTa] at h0; simp [FetchOutcome.isNetErr] at h0
    by_cases hlt : a < env.maxRetries
    · rw [go_netErr_retry env a f le m hm hlt]
      have hrec := ih (a + 1)
        (some (SdkError.connection ("Failed to connect to " ++ env.url)
          (some "TypeError")))
        (by omega) (by omega)
      refine ⟨hrec.1, ?_⟩
      have := hrec.2
      simp only []
      omega
    · have hf0 : f = 0 := by omega
      subst hf0
      rw [go_netErr_final env a 0 le m hm hlt]
      exact ⟨rfl, rfl⟩

/-- C6 counterexample: caller-supplied custom headers are merged last with
the caller winning, so a custom `Authorization` header overrides the
`Bearer <apiKey>` value — the claimed unconditional equality fails. -/
theorem claim_C6_headers_counterexample :
    objGet (buildHeaders { apiKey := "k" }
        { headers := some [("Authorization", "custom")] }) "Authorization" =
      some "custom" ∧ ("custom" : String) ≠ "Bearer k" :=
  ⟨rfl, by decide⟩

/-- C6 amended: provided the caller's custom headers do not themselves set
the key, the `Authorization` header equals `Bearer <apiKey>` and `X-User-ID`
is present iff the effective user id (per-call if supplied, else global) is
a non-empty string; custom headers are merged last, so the last
caller-supplied value of any key wins. -/
theorem claim_C6_headers_amended (cfg : ClientCfg) (opts : ReqOpts) :
    (customHas opts "Authorization" = false →
      objGet (buildHeaders cfg opts) "Authorization" =
        some ("Bearer " ++ cfg.apiKey)) ∧
    (customHas opts "X-User-ID" = false →
      (objGet (buildHeaders cfg opts) "X-User-ID").isSome =
        userIdTruthy cfg opts) ∧
    (∀ (hs : List (String × String)) (k v : String),
      opts.headers = some hs → lastAssoc hs k = some v →
      objGet (buildHeaders cfg opts) k = some v) := by
  refine ⟨fun h => ?_, fun h => ?_, fun hs k v hh hl => ?_⟩
  · rw [objGet_buildHeaders_no_custom cfg opts _ h, baseHeaders_auth]
  · rw [objGet_buildHeaders_no_custom cfg opts _ h, baseHeaders_uid]
  · unfold buildHeaders
    rw [hh]
    dsimp only
    rw [merge_lookup, hl]
    rfl

/-- Witness for C6 amended at a concrete configuration. -/
theorem claim_C6_headers_amended_witness :
    objGet (buildHeaders { apiKey := "key" }
        { userId := some "user-7", headers := some [("X-Custom", "1")] })
        "Authorization" = some ("Bearer " ++ "key") ∧
    (objGet (buildHeaders { apiKey := "key" }
        { userId := some "user-7", headers := some [("X-Custom", "1")] })
        "X-User-ID").isSome =
      userIdTruthy { apiKey := "key" }
        { userId := some "user-7", headers := some [("X-Custom", "1")] } ∧
    objGet (buildHeaders { apiKey := "key" }
        { userId := some "user-7", headers := some [("X-Custom", "1")] })
        "X-Custom" = some "1" :=
  ⟨(claim_C6_headers_amended _ _).1 rfl,
   (claim_C6_headers_amended _ _).2.1 rfl,
   (claim_C6_headers_amended _ _).2.2 [("X-Custom", "1")] "X-Custom" "1"
     rfl rfl⟩

/-- C1 counterexample: a transport answering 200 with a body that is not
valid JSON makes `request` propagate the raw `SyntaxError` from
`response.json()` — the caller receives an untyped exception. -/
theorem claim_C1_typed_errors_counterexample :
    request
      { maxRetries := 3, timeout := 30000
        url := "https://api.example.com/api/v1/x"
        transport := fun _ => .resp
          { status := 200, statusText := "OK", bodyText := "not json" }
        jitter := fun _ => 0, dateParse := fun _ => none, now := 0 } =
      .error (.raw "SyntaxError: Unexpected token in JSON") := by
  rfl

/-- C1 amended: after successful URL construction, every failure thrown by
`requestRaw` is one of the typed SDK errors; the only untyped escape from
`requestRaw` is the raw `TypeError` thrown by `new URL` during request
construction, which runs outside the try/catch and before any transport
call — and `request`/`requestPaginated` additionally leak the raw JSON
`SyntaxError` on a 2xx body that is not valid JSON, per the
counterexample. -/
theorem claim_C1_typed_errors_amended :
    (∀ (env : RunEnv) (urlValid : String → Bool) (baseUrl path : String)
       (query : List (String × Option String)) (url : String) (t : Thrown),
      buildUrl urlValid baseUrl path query = .ok url →
      (requestRawFull env urlValid baseUrl path query).result = .error t →
      t.isTyped = true) ∧
    (∀ (env : RunEnv) (urlValid : String → Bool) (baseUrl path : String)
       (query : List (String × Option String)) (t : Thrown),
      (requestRawFull env urlValid baseUrl path query).result = .error t →
      t.isTyped = false →
      t = .raw "TypeError: Invalid URL" ∧
      buildUrl urlValid baseUrl path query =
        .error (.raw "TypeError: Invalid URL")) := by
  constructor
  · intro env urlValid baseUrl path query url t hb h
    unfold requestRawFull at h
    rw [hb] at h
    exact requestRawGo_typed _ _ 0 none t h
  · intro env urlValid baseUrl path query t h hraw
    cases hb : buildUrl urlValid baseUrl path query with
    | ok url =>
      unfold requestRawFull at h
      rw [hb] at h
      rw [requestRawGo_typed _ _ 0 none t h] at hraw
      exact absurd hraw (by simp)
    | error e =>
      unfold requestRawFull at h
      rw [hb] at h
      simp only at h
      injection h with h1
      subst h1
      have he := buildUrl_error_shape urlValid baseUrl path query e hb
      exact ⟨he, by rw [he]⟩

/-- Witness for C1 amended: a transport whose only attempt aborts yields a
typed `TimeoutError` (valid URL); a base URL the URL constructor rejects
makes the raw `TypeError` escape before any transport call. -/
theorem claim_C1_typed_errors_amended_witness :
    Thrown.isTyped (.typed (SdkError.timeout
      "Request timed out after 30000ms" 30000)) = true ∧
    ((.raw "TypeError: Invalid URL" : Thrown) =
        .raw "TypeError: Invalid URL" ∧
      buildUrl (fun _ => false) "not a url" "/x" [] =
        .error (.raw "TypeError: Invalid URL")) :=
  ⟨claim_C1_typed_errors_amended.1
     { maxRetries := 0, timeout := 30000, url := "u"
       transport := fun _ => .abortErr
       jitter := fun _ => 0, dateParse := fun _ => none, now := 0 }
     (fun _ => true) "https://api.example.com" "/x" []
     "https://api.example.com/x"
     (.typed (SdkError.timeout "Request timed out after 30000ms" 30000))
     (by rfl) (by rfl),
   claim_C1_typed_errors_amended.2
     { maxRetries := 0, timeout := 30000, url := "u"
       transport := fun _ => .abortErr
       jitter := fun _ => 0, dateParse := fun _ => none, now := 0 }
     (fun _ => false) "not a url" "/x" [] (.raw "TypeError: Invalid URL")
     (by rfl) (by rfl)⟩

/-- C2 counterexample: with `maxRetries = 1` and a transport answering 429
on every call with the valid-JSON body of an empty object, the classifier
throws a `TypeError` destructuring `body.error`; the catch wraps it, and
`requestRaw` throws a `ConnectionError` with code `CONNECTION_ERROR` — not
the claimed `RateLimitError` with code `RATE_LIMITED` (the 2-call count
still holds). -/
theorem claim_C2_retry_until_exhaustion_counterexample :
    thrownKind (requestRaw
      { maxRetries := 1, timeout := 30000, url := "u"
        transport := fun _ => .resp
          { status := 429, statusText := "Too Many Requests"
            bodyText := "\x7b\x7d" }
        jitter := fun _ => 0, dateParse := fun _ => none
        now := 0 }).result = some .connection ∧
    thrownCode (requestRaw
      { maxRetries := 1, timeout := 30000, url := "u"
        transport := fun _ => .resp
          { status := 429, statusText := "Too Many Requests"
            bodyText := "\x7b\x7d" }
        jitter := fun _ => 0, dateParse := fun _ => none
        now := 0 }).result = some "CONNECTION_ERROR" ∧
    (requestRaw
      { maxRetries := 1, timeout := 30000, url := "u"
        transport := fun _ => .resp
          { status := 429, statusText := "Too Many Requests"
            bodyText := "\x7b\x7d" }
        jitter := fun _ => 0, dateParse := fun _ => none
        now := 0 }).calls = 2 :=
  ⟨rfl, rfl, rfl⟩

/-- C2 amended: every all-429 transport causes exactly `maxRetries + 1`
transport invocations; and when each 429 body is one the classifier can
destructure (invalid JSON taking the synthesized fallback, or valid JSON
with a usable `error` member), `requestRaw` then throws a `RateLimitError`
with code `RATE_LIMITED`. -/
theorem claim_C2_retry_until_exhaustion :
    (∀ env : RunEnv, (∀ i, (env.transport i).is429 = true) →
      (requestRaw env).calls = env.maxRetries + 1) ∧
    (∀ env : RunEnv, (∀ i, (env.transport i).is429WellFormed = true) →
      thrownKind (requestRaw env).result = some .rateLimit ∧
      thrownCode (requestRaw env).result = some "RATE_LIMITED" ∧
      (requestRaw env).calls = env.maxRetries + 1) :=
  ⟨fun env h =>
     all429_calls_loop env h (env.maxRetries + 1) 0 none (by omega)
       (by omega),
   fun env h =>
     all429wf_loop env h (env.maxRetries + 1) 0 none (by omega) (by omega)⟩

/-- Witness for C2 amended: with `maxRetries = 1` and well-shaped 429
bodies there are exactly 2 total calls and a thrown rate-limit error; the
call count also holds for the ill-shaped-body transport. -/
theorem claim_C2_retry_until_exhaustion_witness :
    (requestRaw
      { maxRetries := 1, timeout := 30000, url := "u"
        transport := fun _ => .resp
          { status := 429, statusText := "Too Many Requests"
            bodyText := "\x7b\x7d" }
        jitter := fun _ => 0, dateParse := fun _ => none
        now := 0 }).calls = 1 + 1 ∧
    (thrownKind (requestRaw
      { maxRetries := 1, timeout := 30000, url := "u"
        transport := fun _ => .resp
          { status := 429, statusText := "Too Many Requests"
            bodyText := "\x7b\"error\":\x7b\"code\":\"RATE_LIMITED\",\"message\":\"Slow down\"\x7d,\"meta\":\x7b\"requestId\":\"req-1\"\x7d\x7d" }
        jitter := fun _ => 0, dateParse := fun _ => none
        now := 0 }).result = some .rateLimit ∧
     thrownCode (requestRaw
      { maxRetries := 1, timeout := 30000, url := "u"
        transport := fun _ => .resp
          { status := 429, statusText := "Too Many Requests"
            bodyText := "\x7b\"error\":\x7b\"code\":\"RATE_LIMITED\",\"message\":\"Slow down\"\x7d,\"meta\":\x7b\"requestId\":\"req-1\"\x7d\x7d" }
        jitter := fun _ => 0, dateParse := fun _ => none
        now := 0 }).result = some "RATE_LIMITED" ∧
     (requestRaw
      { maxRetries := 1, timeout := 30000, url := "u"
        transport := fun _ => .resp
          { status := 429, statusText := "Too Many Requests"
            bodyText := "\x7b\"error\":\x7b\"code\":\"RATE_LIMITED\",\"message\":\"Slow down\"\x7d,\"meta\":\x7b\"requestId\":\"req-1\"\x7d\x7d" }
        jitter := fun _ => 0, dateParse := fun _ => none
        now := 0 }).calls = 1 + 1) :=
  ⟨claim_C2_retry_until_exhaustion.1 _ (fun _ => rfl),
   claim_C2_retry_until_exhaustion.2 _ (fun _ => rfl)⟩

/-- C7: for every attempt number and jitter in [0, 500) the computed
backoff equals `min(2^attempt * 1000 + jitter, 30000)` ms (hence is capped
at 30000); and on a 429 response with attempts remaining, the slept wait
equals the minimum of the server-declared retry-after value and that
computed backoff. -/
theorem claim_C7_backoff_formula :
    (∀ (a : Nat) (j : ℚ), 0 ≤ j → j < 500 →
      calculateBackoff a j = min ((2 ^ a : ℚ) * 1000 + j) 30000 ∧
      calculateBackoff a j ≤ 30000) ∧
    (∀ (env : RunEnv) (r : HttpResp),
      env.transport 0 = .resp r → r.status = 429 → 0 < env.maxRetries →
      (requestRaw env).sleeps.head? =
        some (min ((parseRetryAfter r env.dateParse env.now : ℚ))
          (calculateBackoff 0 (env.jitter 0)))) := by
  constructor
  · intro a j h0 h5
    exact ⟨rfl, min_le_right _ _⟩
  · intro env r hT h429 hmr
    unfold requestRaw
    cases hB : safeParsedBody r with
    | some body =>
      rw [go_resp_429_retry env 0 env.maxRetries none r body hT h429 hmr hB]
      rfl
    | none =>
      rw [go_resp_429_retry_badbody env 0 env.maxRetries none r hT h429 hmr
        hB]
      rfl

/-- Witness for C7 at attempt 2 with jitter 250, and a concrete 429
response carrying `retry-after: 2`. -/
theorem claim_C7_backoff_formula_witness :
    (calculateBackoff 2 250 = min ((2 ^ 2 : ℚ) * 1000 + 250) 30000 ∧
      calculateBackoff 2 250 ≤ 30000) ∧
    (requestRaw
      { maxRetries := 1, timeout := 30000, url := "u"
        transport := fun _ => .resp
          { status := 429, bodyText := "", retryAfterHeader := some "2" }
        jitter := fun _ => 100, dateParse := fun _ => none
        now := 0 }).sleeps.head? =
      some (min ((parseRetryAfter
          { status := 429, bodyText := "", retryAfterHeader := some "2" }
          (fun _ => none) 0 : ℚ))
        (calculateBackoff 0 100)) :=
  ⟨claim_C7_backoff_formula.1 2 250 (by norm_num) (by norm_num),
   claim_C7_backoff_formula.2
     { maxRetries := 1, timeout := 30000, url := "u"
       transport := fun _ => .resp
         { status := 429, bodyText := "", retryAfterHeader := some "2" }
       jitter := fun _ => 100, dateParse := fun _ => none
       now := 0 } _ rfl rfl (by decide)⟩

/-- C9: when the fetch rejects with an `AbortError` (the synthesized
timeout fired), `requestRaw` throws a `TimeoutError` immediately without
consuming further attempts; network-level exceptions are wrapped as
connection failures and retried within the same attempt budget (a later
successful response is returned; exhausting the budget on connection
failures throws a `ConnectionError`). -/
theorem claim_C9_abort_fatal_net_retried :
    (∀ (env : RunEnv) (k : Nat),
      k ≤ env.maxRetries →
      (∀ i, i < k → (env.transport i).isNetErr = true) →
      env.transport k = .abortErr →
      thrownKind (requestRaw env).result = some .timeout ∧
      (requestRaw env).calls = k + 1) ∧
    (∀ (env : RunEnv) (r : HttpResp) (msg : String),
      env.transport 0 = .netErr msg → env.transport 1 = .resp r →
      r.isOk = true → 1 ≤ env.maxRetries →
      (requestRaw env).result = .ok r ∧ (requestRaw env).calls = 2) ∧
    (∀ (env : RunEnv),
      (∀ i, (env.transport i).isNetErr = true) →
      thrownKind (requestRaw env).result = some .connection ∧
      (requestRaw env).calls = env.maxRetries + 1) := by
  refine ⟨fun env k hk hnet hT => ?_, fun env r msg hT0 hT1 hok hmr => ?_,
    fun env h => ?_⟩
  · exact netAbort_loop env k 0 (env.maxRetries + 1) none (by omega)
      (by omega) (fun i hi => by simpa using hnet i hi) (by simpa using hT)
  · unfold requestRaw
    rw [go_netErr_retry env 0 env.maxRetries none msg hT0 (by omega)]
    obtain ⟨m, hm⟩ : ∃ m, env.maxRetries = m + 1 :=
      ⟨env.maxRetries - 1, by omega⟩
    rw [hm, go_resp_ok env 1 m _ r hT1 hok]
    exact ⟨rfl, rfl⟩
  · exact allNet_loop env h (env.maxRetries + 1) 0 none (by omega) (by omega)

/-- Witness for C9: one network failure then an abort gives a timeout
after exactly 2 calls; one network failure then a 200 response succeeds
with exactly 2 calls. -/
theorem claim_C9_abort_fatal_net_retried_witness :
    (thrownKind (requestRaw
      { maxRetries := 2, timeout := 5000, url := "u"
        transport := fun i => if i = 0 then .netErr "fetch failed"
          else .abortErr
        jitter := fun _ => 0, dateParse := fun _ => none
        now := 0 }).result = some .timeout ∧
     (requestRaw
      { maxRetries := 2, timeout := 5000, url := "u"
        transport := fun i => if i = 0 then .netErr "fetch failed"
          else .abortErr
        jitter := fun _ => 0, dateParse := fun _ => none
        now := 0 }).calls = 1 + 1) ∧
    ((requestRaw
      { maxRetries := 2, timeout := 5000, url := "u"
        transport := fun i => if i = 0 then .netErr "fetch failed"
          else .resp { status := 200, bodyText := "\x7b\x7d" }
        jitter := fun _ => 0, dateParse := fun _ => none
        now := 0 }).result =
        .ok { status := 200, bodyText := "\x7b\x7d" } ∧
     (requestRaw
      { maxRetries := 2, timeout := 5000, url := "u"
        transport := fun i => if i = 0 then .netErr "fetch failed"
          else .resp { status := 200, bodyText := "\x7b\x7d" }
        jitter := fun _ => 0, dateParse := fun _ => none
        now := 0 }).calls = 2) :=
  ⟨claim_C9_abort_fatal_net_retried.1
     { maxRetries := 2, timeout := 5000, url := "u"
       transport := fun i => if i = 0 then .netErr "fetch failed"
         else .abortErr
       jitter := fun _ => 0, dateParse := fun _ => none
       now := 0 } 1 (by decide) (fun i hi => by
         have h0 : i = 0 := by omega
         subst h0
         rfl) (by rfl),
   claim_C9_abort_fatal_net_retried.2.1
     { maxRetries := 2, timeout := 5000, url := "u"
       transport := fun i => if i = 0 then .netErr "fetch failed"
         else .resp { status := 200, bodyText := "\x7b\x7d" }
       jitter := fun _ => 0, dateParse := fun _ => none
       now := 0 } { status := 200, bodyText := "\x7b\x7d" } "fetch failed"
     (by rfl) (by rfl) (by rfl) (by decide)⟩
